import Mathlib

/-!
Verification of the core data pipeline of the `gpx-poster` repository.

The TypeScript sources are shallowly embedded below.  JavaScript `number`s
are modelled by an arbitrary linear ordered field `α` (instantiated at `ℚ`
for concrete executions and at `ℝ` where real trigonometry is required by
`haversineDistance`).  JavaScript `undefined` for optional fields is
modelled by `Option α`; JavaScript truthiness of a possibly-missing number
(`x ?`, `x && y`, `x || y`) is modelled by `otruthy` / `jsOr` below (a
number is falsy exactly when it is `0`; an absent value is falsy).
`Date` values are modelled by their millisecond timestamps; a `Date`
object is always truthy in JavaScript, so a time test `t1 && t2` is
modelled by `Option.isSome`.  String-valued metadata (activity name,
segment descriptions) carries no information used by any algorithm here
and is omitted from the embedded records.
-/

namespace GpxPoster

/-- JavaScript truthiness of an optional number: `undefined` and `0` are
falsy, every other number is truthy. -/
def otruthy {α : Type} [Zero α] [DecidableEq α] : Option α → Bool
  | none => false
  | some v => decide (v ≠ 0)

/-- JavaScript `a || b` on optional numbers: returns `a` when `a` is
truthy, otherwise returns `b` (whatever it is). -/
def jsOr {α : Type} [Zero α] [DecidableEq α] (a b : Option α) : Option α :=
  if otruthy a then a else b

/-- JavaScript `x ? x : undefined` on an optional number. -/
def truthyOrNone {α : Type} [Zero α] [DecidableEq α] (a : Option α) : Option α :=
  if otruthy a then a else none

/-- `src/types/activity.ts` — `Point`: one telemetry sample.  `time` is the
millisecond timestamp of the `Date` field. -/
structure Point (α : Type) where
  lat : α
  lng : α
  ele : Option α := none
  time : Option α := none
  hr : Option α := none
  cadence : Option α := none
  power : Option α := none
  temp : Option α := none
  deriving Repr, DecidableEq

instance {α : Type} [Zero α] : Inhabited (Point α) := ⟨{ lat := 0, lng := 0 }⟩

/-- `src/types/activity.ts` — `ProcessedPoint extends Point`: the base
point plus derived metrics.  The inherited fields are kept in `point`. -/
structure ProcessedPoint (α : Type) where
  point : Point α
  distance : α
  pace : α
  grade : α
  speed : α
  normalizedHR : Option α := none
  normalizedPace : Option α := none
  normalizedPower : Option α := none
  deriving Repr, DecidableEq

instance {α : Type} [Zero α] : Inhabited (ProcessedPoint α) :=
  ⟨{ point := default, distance := 0, pace := 0, grade := 0, speed := 0 }⟩

/-- `src/types/activity.ts` — `Split`: one fixed-distance bucket. -/
structure Split (α : Type) where
  index : ℕ
  distance : α
  time : α
  pace : α
  elevationGain : α
  averageHR : Option α := none
  deriving Repr, DecidableEq

instance {α : Type} [Zero α] : Inhabited (Split α) :=
  ⟨{ index := 0, distance := 0, time := 0, pace := 0, elevationGain := 0 }⟩

/-- `src/types/activity.ts` — `Segment`: a contiguous index range used for
highlights.  The presentation-only `description` string is omitted. -/
structure Segment (α : Type) where
  startIndex : ℕ
  endIndex : ℕ
  distance : α
  grade : α
  deriving Repr, DecidableEq

section Metrics

variable {α : Type} [LinearOrderedField α] [FloorRing α]

/-- `src/utils/dataProcessor.ts` lines 121–125 — `percentile(values, p)`:
sort ascending, take the element at index `Math.floor(length * p)`, with
`|| 0` turning an out-of-range access into `0`. -/
def percentile (values : List α) (p : α) : α :=
  let sorted := values.mergeSort (fun a b => a ≤ b)
  let index := ⌊(sorted.length : α) * p⌋
  if 0 ≤ index then sorted.getD index.toNat 0 else 0

/-- `src/utils/dataProcessor.ts` lines 116–119 — `normalize(value, min, max)`:
clamp `(value - min) / (max - min)` into `[0, 1]`, and `0.5` when the band
is degenerate. -/
def normalize (value mi ma : α) : α :=
  if ma = mi then 0.5 else max 0 (min 1 ((value - mi) / (ma - mi)))

/-- `src/utils/dataProcessor.ts` lines 63–88 — `smoothValue`: causal
trailing moving average.  The loop reads `points[i]` for
`start ≤ i < index`; an out-of-range access yields `undefined`, fails the
`typeof val === "number"` test and is skipped, which the `filterMap` over
`points.get?` reproduces.  The `field` access is modelled by a projection
(it is only ever instantiated with the always-numeric `pace`/`grade`). -/
def smoothValue (points : List (ProcessedPoint α)) (index : ℕ)
    (field : ProcessedPoint α → α) (value : α) (windowSize : ℕ) : α :=
  let halfWindow := windowSize / 2
  let start := index - halfWindow
  let stop := min points.length (index + halfWindow)
  if stop - start = 0 then value
  else
    let vals := ((List.range index).drop start).filterMap
      (fun i => (points.get? i).map field)
    (value + vals.sum) / (1 + vals.length)

/-- `src/utils/dataProcessor.ts` lines 90–114 — `normalizeMetrics`:
percentile-normalize pace, heart rate and power independently. -/
def normalizeMetrics (points : List (ProcessedPoint α)) : List (ProcessedPoint α) :=
  let paces := (points.map (fun p => p.pace)).filter (fun p => 0 < p)
  let hrs := points.filterMap (fun p => p.point.hr)
  let powers := points.filterMap (fun p => p.point.power)
  let paceP5 := percentile paces 0.05
  let paceP95 := percentile paces 0.95
  let hrP5 := if 0 < hrs.length then percentile hrs 0.05 else 0
  let hrP95 := if 0 < hrs.length then percentile hrs 0.95 else 0
  let powerP5 := if 0 < powers.length then percentile powers 0.05 else 0
  let powerP95 := if 0 < powers.length then percentile powers 0.95 else 0
  points.map (fun point =>
    { point with
      normalizedPace := some (normalize point.pace paceP5 paceP95)
      normalizedHR :=
        if otruthy point.point.hr then
          some (normalize (point.point.hr.getD 0) hrP5 hrP95)
        else none
      normalizedPower :=
        if otruthy point.point.power then
          some (normalize (point.point.power.getD 0) powerP5 powerP95)
        else none })

/-- `src/utils/dataProcessor.ts` lines 148–152 — the per-slice averages of
a candidate split: `reduce` of `pace` resp. `hr || 0` divided by the slice
length. -/
def sliceAvgPace (slicePts : List (ProcessedPoint α)) : α :=
  (slicePts.map (fun p => p.pace)).sum / slicePts.length

/-- `src/utils/dataProcessor.ts` lines 150–152 — average heart rate of a
slice: missing heart rates contribute `0` to the numerator and the
denominator counts every point of the slice. -/
def sliceAvgHR (slicePts : List (ProcessedPoint α)) : α :=
  (slicePts.map (fun p => p.point.hr.getD 0)).sum / slicePts.length

/-- `src/utils/dataProcessor.ts` lines 153–159 — elevation gain of a slice:
sum of positive consecutive deltas, a delta counting only when both
endpoints have truthy elevation. -/
def sliceElevGain (slicePts : List (ProcessedPoint α)) : α :=
  ((slicePts.zip slicePts.tail).map (fun pr =>
    if otruthy pr.1.point.ele ∧ otruthy pr.2.point.ele ∧
        pr.1.point.ele.getD 0 < pr.2.point.ele.getD 0 then
      pr.2.point.ele.getD 0 - pr.1.point.ele.getD 0
    else 0)).sum

/-- `src/utils/dataProcessor.ts` lines 141–146 — duration of a slice:
last-minus-first `Date` in seconds, `0` when either end lacks a time
(a `Date` object is always truthy, hence the `isSome` tests). -/
def sliceTime (slicePts : List (ProcessedPoint α)) : α :=
  match slicePts.head?.bind (fun p => p.point.time),
        slicePts.getLast?.bind (fun p => p.point.time) with
  | some startTime, some endTime => (endTime - startTime) / 1000
  | _, _ => 0

/-- `src/utils/dataProcessor.ts` lines 161–168 — the `Split` record pushed
for the slice `points.slice(start, i + 1)`. -/
def mkSplit (splitCount : ℕ) (acc : α) (slicePts : List (ProcessedPoint α)) : Split α :=
  { index := splitCount
    distance := acc
    time := sliceTime slicePts
    pace := sliceAvgPace slicePts
    elevationGain := sliceElevGain slicePts
    averageHR := if 0 < sliceAvgHR slicePts then some (sliceAvgHR slicePts) else none }

/-- `src/utils/dataProcessor.ts` lines 135–173 — the scanning loop of
`detectSplits`.  `items` enumerates `(i, points[i-1], points[i])` for
`i = 1 … length-1`; the state is the slice start index, the distance
accumulator and the splits emitted so far. -/
def detectSplitsGo (points : List (ProcessedPoint α)) (splitDistance : α) :
    ℕ → α → List (Split α) → List (ℕ × ProcessedPoint α × ProcessedPoint α) →
    List (Split α)
  | _, _, splits, [] => splits
  | start, acc, splits, (i, prevPt, currPt) :: rest =>
    let segmentDistance := currPt.distance - prevPt.distance
    let acc2 := acc + segmentDistance
    if splitDistance ≤ acc2 then
      let slicePts := (points.drop start).take (i + 1 - start)
      detectSplitsGo points splitDistance i 0
        (splits ++ [mkSplit splits.length acc2 slicePts]) rest
    else
      detectSplitsGo points splitDistance start acc2 splits rest

/-- `src/utils/dataProcessor.ts` lines 127–176 — `detectSplits`. -/
def detectSplits (points : List (ProcessedPoint α)) (splitDistance : α) :
    List (Split α) :=
  detectSplitsGo points splitDistance 0 0 []
    (List.enumFrom 1 (points.zip points.tail))

/-- `src/utils/dataProcessor.ts` lines 178–183 — `findFastestSplit`:
`reduce` keeping the split of strictly smaller pace. -/
def findFastestSplit (splits : List (Split α)) : Option (Split α) :=
  match splits with
  | [] => none
  | s :: rest =>
    some (rest.foldl (fun fastest split =>
      if split.pace < fastest.pace then split else fastest) s)

/-- `src/utils/dataProcessor.ts` lines 230–245 — `findMaxHRSegment`: the
scan for the global maximum heart rate.  The state is `(maxHR, maxHRIndex)`
with the sentinel index `-1`; a point enters the comparison only when its
`hr` is truthy. -/
def maxHRScan (points : List (ProcessedPoint α)) : α × ℤ :=
  points.enum.foldl (fun st ip =>
    if otruthy ip.2.point.hr ∧ st.1 < ip.2.point.hr.getD 0 then
      (ip.2.point.hr.getD 0, (ip.1 : ℤ))
    else st) (0, -1)

/-- `src/utils/dataProcessor.ts` lines 230–254 — `findMaxHRSegment`: emit
a ±30-sample window (clamped to the sequence bounds) around the maximum
heart rate, or `undefined` when no truthy heart rate exists. -/
def findMaxHRSegment (points : List (ProcessedPoint α)) : Option (Segment α) :=
  let scan := maxHRScan points
  if scan.2 = -1 then none
  else
    let windowSize : ℕ := 30
    let start := (scan.2 - windowSize).toNat
    let stop := min (points.length - 1) (scan.2.toNat + windowSize)
    some
      { startIndex := start
        endIndex := stop
        distance := (points.getD stop default).distance -
          (points.getD start default).distance
        grade := 0 }

end Metrics

/-- JavaScript `Math.atan2(y, x)`: the angle of the point `(x, y)` in
`(-π, π]`, with `atan2 0 0 = 0`. -/
noncomputable def atan2 (y x : ℝ) : ℝ :=
  if 0 < x then Real.arctan (y / x)
  else if x < 0 then
    (if 0 ≤ y then Real.arctan (y / x) + Real.pi
     else Real.arctan (y / x) - Real.pi)
  else
    (if 0 < y then Real.pi / 2 else if y < 0 then -(Real.pi / 2) else 0)

/-- `src/utils/gpxParser.ts` lines 120–133 — `haversineDistance`:
great-circle distance with Earth radius 6 371 000 m.  The same function is
duplicated verbatim in `tcxParser.ts` and the FIT adapter. -/
noncomputable def haversineDistance (p1 p2 : Point ℝ) : ℝ :=
  let R : ℝ := 6371000
  let phi1 := p1.lat * Real.pi / 180
  let phi2 := p2.lat * Real.pi / 180
  let dphi := (p2.lat - p1.lat) * Real.pi / 180
  let dlam := (p2.lng - p1.lng) * Real.pi / 180
  let a := Real.sin (dphi / 2) * Real.sin (dphi / 2) +
    Real.cos phi1 * Real.cos phi2 * (Real.sin (dlam / 2) * Real.sin (dlam / 2))
  let c := 2 * atan2 (Real.sqrt a) (Real.sqrt (1 - a))
  R * c

/-- `src/utils/dataProcessor.ts` line 36 — `segmentDistance`:
`i > 0 ? haversineDistance(prev, curr) : 0`, with `prevOpt = none` at
`i = 0` (where the code sets `prev = curr`). -/
noncomputable def stepSegmentDistance (prevOpt : Option (Point ℝ)) (curr : Point ℝ) : ℝ :=
  if prevOpt.isSome then haversineDistance (prevOpt.getD curr) curr else 0

/-- `src/utils/dataProcessor.ts` lines 39–42 — `timeDelta`: seconds between
consecutive `Date`s, `1` when either is missing. -/
noncomputable def stepTimeDelta (prevOpt : Option (Point ℝ)) (curr : Point ℝ) : ℝ :=
  match curr.time, (prevOpt.getD curr).time with
  | some ct, some pt => (ct - pt) / 1000
  | _, _ => 1

/-- `src/utils/dataProcessor.ts` line 44 — `speed`. -/
noncomputable def stepSpeed (prevOpt : Option (Point ℝ)) (curr : Point ℝ) : ℝ :=
  if 0 < stepTimeDelta prevOpt curr then
    stepSegmentDistance prevOpt curr / stepTimeDelta prevOpt curr
  else 0

/-- `src/utils/dataProcessor.ts` line 45 — the raw (pre-smoothing) pace. -/
noncomputable def stepRawPace (prevOpt : Option (Point ℝ)) (curr : Point ℝ) : ℝ :=
  if 0 < stepSpeed prevOpt curr then 1000 / (stepSpeed prevOpt curr * 60) else 0

/-- `src/utils/dataProcessor.ts` line 47 — `elevationDelta`: `0` unless both
endpoints carry truthy elevation. -/
noncomputable def stepElevationDelta (prevOpt : Option (Point ℝ)) (curr : Point ℝ) : ℝ :=
  if otruthy curr.ele ∧ otruthy (prevOpt.getD curr).ele then
    curr.ele.getD 0 - (prevOpt.getD curr).ele.getD 0
  else 0

/-- `src/utils/dataProcessor.ts` lines 48–49 — the raw (pre-smoothing)
grade. -/
noncomputable def stepRawGrade (prevOpt : Option (Point ℝ)) (curr : Point ℝ) : ℝ :=
  if 0 < stepSegmentDistance prevOpt curr then
    stepElevationDelta prevOpt curr / stepSegmentDistance prevOpt curr * 100
  else 0

/-- `src/utils/dataProcessor.ts` lines 51–57 — the `ProcessedPoint` pushed
for the current input point, given the processed points so far (the
current index is `processed.length`). -/
noncomputable def stepProcessedPoint (prevOpt : Option (Point ℝ)) (cum : ℝ)
    (processed : List (ProcessedPoint ℝ)) (curr : Point ℝ) : ProcessedPoint ℝ :=
  { point := curr
    distance := cum + stepSegmentDistance prevOpt curr
    pace := smoothValue processed processed.length (fun q => q.pace)
      (stepRawPace prevOpt curr) 10
    grade := smoothValue processed processed.length (fun q => q.grade)
      (stepRawGrade prevOpt curr) 5
    speed := stepSpeed prevOpt curr }

/-- `src/utils/dataProcessor.ts` lines 28–61 — the `computeMetrics` loop,
one step per input point.  The state is the previous point (`none` at
`i = 0`), the cumulative distance and the processed points so far; the
final state is returned so that runs over concatenated inputs compose. -/
noncomputable def computeMetricsGo :
    Option (Point ℝ) → ℝ → List (ProcessedPoint ℝ) → List (Point ℝ) →
    List (ProcessedPoint ℝ) × Option (Point ℝ) × ℝ
  | prevOpt, cum, processed, [] => (processed, prevOpt, cum)
  | prevOpt, cum, processed, curr :: rest =>
    computeMetricsGo (some curr) (cum + stepSegmentDistance prevOpt curr)
      (processed ++ [stepProcessedPoint prevOpt cum processed curr]) rest

/-- `src/utils/dataProcessor.ts` lines 28–61 — `computeMetrics`. -/
noncomputable def computeMetrics (points : List (Point ℝ)) : List (ProcessedPoint ℝ) :=
  (computeMetricsGo none 0 [] points).1

/-! ### Format adapters

The three adapters parse external documents with library code (DOM,
`fast-xml-parser`, `@garmin/fitsdk`); the already-parsed raw records are
modelled as data and the adapters' own field extraction, filtering and
total recomputation are embedded from the source.  `parseFloat`/`parseInt`
results are modelled as `Option α` with `none` standing for `NaN`
(literally "not a number").  The `bounds` box is initialised with
`±Infinity` in the source and is not representable in an ordered field;
it is omitted, as are string/date metadata (`name`, `date`) — no claim
concerns them. -/

/-- JavaScript `a || b` on plain numbers (no `NaN` involved): `a` when
nonzero, otherwise `b`. -/
def jsOrNum {α : Type} [Zero α] [DecidableEq α] (a b : α) : α :=
  if a ≠ 0 then a else b

/-- JavaScript `a || b` where `a` is a possibly-missing number and `b` a
plain number. -/
def jsOrNumOpt {α : Type} [Zero α] [DecidableEq α] (a : Option α) (b : α) : α :=
  if otruthy a then a.getD 0 else b

/-- The canonical `Activity` of `src/types/activity.ts` (metadata strings
and the `±Infinity`-initialised bounds box omitted). -/
structure Activity (α : Type) where
  points : List (Point α)
  totalDistance : α
  totalElevationGain : α
  totalTime : α
  averagePace : α
  averageHR : Option α := none
  maxHR : Option α := none
  deriving Repr, DecidableEq

instance {α : Type} [Zero α] : Inhabited (Activity α) :=
  ⟨{ points := [], totalDistance := 0, totalElevationGain := 0,
     totalTime := 0, averagePace := 0 }⟩

/-- §7 error taxonomy: `NoTrackDataError` (zero usable points) and
`IntegrityError` (binary container fails its embedded check). -/
inductive ParseError where
  | noTrackData : ParseError
  | integrityError : ParseError
  deriving Repr, DecidableEq

/-- The shared recomputed total distance: sum of consecutive geodesic
distances (the `totalDistance += haversineDistance(prev, curr)` loop of
all three adapters). -/
noncomputable def recomputedDistance (points : List (Point ℝ)) : ℝ :=
  ((points.zip points.tail).map (fun pr => haversineDistance pr.1 pr.2)).sum

/-- The shared recomputed elevation gain: sum of positive consecutive
deltas, counted only when both endpoints carry truthy elevation
(`curr.ele && prev.ele && curr.ele > prev.ele`). -/
def recomputedElevGain {α : Type} [LinearOrderedField α]
    (points : List (Point α)) : α :=
  ((points.zip points.tail).map (fun pr =>
    if otruthy pr.1.ele ∧ otruthy pr.2.ele ∧ pr.1.ele.getD 0 < pr.2.ele.getD 0 then
      pr.2.ele.getD 0 - pr.1.ele.getD 0
    else 0)).sum

/-- The shared recomputed total time: last minus first timestamp in
seconds, `0` when either endpoint lacks a time. -/
def recomputedTime {α : Type} [LinearOrderedField α]
    (points : List (Point α)) : α :=
  match points.head?.bind (fun p => p.time),
        points.getLast?.bind (fun p => p.time) with
  | some ft, some lt => (lt - ft) / 1000
  | _, _ => 0

/-- The heart-rate statistics loop of the TCX and FIT metric calculators:
`(hrSum, hrCount, maxHR)` accumulated over `points[1..]` (the loop starts
at `i = 1`, so the first point's heart rate is never counted), a point
participating only when its `hr` is truthy. -/
def hrStatsTail {α : Type} [LinearOrderedField α]
    (points : List (Point α)) : α × ℕ × α :=
  points.tail.foldl (fun st p =>
    if otruthy p.hr then
      (st.1 + p.hr.getD 0, st.2.1 + 1, max st.2.2 (p.hr.getD 0))
    else st) (0, 0, 0)

/-- `src/utils/gpxParser.ts` lines 78–118 — `calculateBasicMetrics`
(bounds omitted). -/
noncomputable def calculateBasicMetrics (points : List (Point ℝ)) : Activity ℝ :=
  let totalDistance := recomputedDistance points
  let totalTime := recomputedTime points
  { points := points
    totalDistance := totalDistance
    totalElevationGain := recomputedElevGain points
    totalTime := totalTime
    averagePace := if 0 < totalTime then totalTime / totalDistance else 0 }

/-- One raw GPX coordinate as delivered by `togeojson`:
`[lng, lat, ele?]`. -/
structure GPXCoord (α : Type) where
  lng : α
  lat : α
  ele : Option α := none
  deriving Repr, DecidableEq

/-- One GeoJSON feature of the GPX document: whether its geometry is a
(multi-)line, its line strings, and the optional `coordTimes` property
(timestamps modelled as numbers, an entry being truthy iff present). -/
structure GPXFeature (α : Type) where
  isLine : Bool
  lines : List (List (GPXCoord α))
  coordTimes : Option (List (Option α)) := none
  deriving Repr, DecidableEq

/-- `src/utils/gpxParser.ts` lines 19–57 — the point-extraction loop of
`parseGPXFile`: every coordinate of every line string of a line feature is
stored, with no validation of any kind. -/
def gpxPointsOfFeature {α : Type} [LinearOrderedField α]
    (f : GPXFeature α) : List (Point α) :=
  if ¬ f.isLine then []
  else
    (f.lines.map (fun line =>
      line.enum.map (fun ic =>
        { lat := ic.2.lat
          lng := ic.2.lng
          ele := ic.2.ele
          time := f.coordTimes.bind (fun ts => ts.getD ic.1 none) : Point α }))).flatten

/-- `src/utils/gpxParser.ts` lines 4–76 — `parseGPXFile` on the parsed
GeoJSON features. -/
noncomputable def parseGPXFile (features : List (GPXFeature ℝ)) :
    Except ParseError (Activity ℝ) :=
  if features.length = 0 then .error .noTrackData
  else
    let points := (features.map gpxPointsOfFeature).flatten
    if points.length = 0 then .error .noTrackData
    else .ok (calculateBasicMetrics points)

/-- One raw TCX `Trackpoint` after XML parsing: `hasPosition` models the
`if (!tp.Position) continue` guard, `lat`/`lng` the `parseFloat` results
(`none` = `NaN`), and the remaining fields the optional raw values. -/
structure TCXTrackpoint (α : Type) where
  hasPosition : Bool := true
  lat : Option α := none
  lng : Option α := none
  altitudeMeters : Option α := none
  time : Option α := none
  hrValue : Option α := none
  cadence : Option α := none
  tpxWatts : Option α := none
  watts : Option α := none
  deriving Repr, DecidableEq

/-- `src/utils/tcxParser.ts` lines 50–73 — extraction of one `Point` from
a raw trackpoint; `none` when the record is skipped (`!tp.Position`) or
dropped (`isNaN(point.lat) || isNaN(point.lng)`).  Note the source stores
`Extensions.TPX.Watts` into `temp` as well. -/
def tcxPointOfTrackpoint {α : Type} [LinearOrderedField α]
    (tp : TCXTrackpoint α) : Option (Point α) :=
  if ¬ tp.hasPosition then none
  else
    match tp.lat, tp.lng with
    | some la, some ln =>
      some
        { lat := la
          lng := ln
          ele := truthyOrNone tp.altitudeMeters
          time := tp.time
          hr := truthyOrNone tp.hrValue
          cadence := truthyOrNone tp.cadence
          temp := truthyOrNone tp.tpxWatts
          power := if otruthy tp.tpxWatts then tp.tpxWatts else truthyOrNone tp.watts }
    | _, _ => none

/-- One raw TCX `Lap`: declared totals plus its trackpoints (`[]` models a
missing `Track`/`Trackpoint`, which the source skips). -/
structure TCXLap (α : Type) where
  distanceMeters : Option α := none
  totalTimeSeconds : Option α := none
  trackpoints : List (TCXTrackpoint α) := []
  deriving Repr, DecidableEq

/-- `src/utils/tcxParser.ts` lines 129–136 — `activityDistance`: the sum
of the laps' declared `DistanceMeters` (absent values count `0`) when a
`Lap` node exists, otherwise the recomputed haversine total. -/
noncomputable def tcxActivityDistance (points : List (Point ℝ))
    (lap : Option (List (TCXLap ℝ))) : ℝ :=
  match lap with
  | none => recomputedDistance points
  | some laps => (laps.map (fun l => l.distanceMeters.getD 0)).sum

/-- `src/utils/tcxParser.ts` lines 138–140 — the summed declared
`TotalTimeSeconds` of the laps (`0` when no `Lap` node exists). -/
def tcxLapTime {α : Type} [LinearOrderedField α]
    (lap : Option (List (TCXLap α))) : α :=
  match lap with
  | none => 0
  | some laps => (laps.map (fun l => l.totalTimeSeconds.getD 0)).sum

/-- `src/utils/tcxParser.ts` lines 144–150 — `activityTime`: the lap total
when nonzero, otherwise the timestamp fallback. -/
noncomputable def tcxActivityTime (points : List (Point ℝ))
    (lap : Option (List (TCXLap ℝ))) : ℝ :=
  if tcxLapTime lap = 0 then recomputedTime points else tcxLapTime lap

/-- `src/utils/tcxParser.ts` lines 97–164 — `calculateTCXMetrics`
(bounds omitted).  `lap` is `none` when the activity has no `Lap` node.
Note line 152: the pace divides by `activityDistance / 1000`
(kilometres of the lap-declared distance), not by the stored
`totalDistance`. -/
noncomputable def calculateTCXMetrics (points : List (Point ℝ))
    (lap : Option (List (TCXLap ℝ))) : Activity ℝ :=
  { points := points
    totalDistance :=
      jsOrNum (tcxActivityDistance points lap) (recomputedDistance points)
    totalElevationGain := recomputedElevGain points
    totalTime := tcxActivityTime points lap
    averagePace :=
      if 0 < tcxActivityTime points lap then
        tcxActivityTime points lap / (tcxActivityDistance points lap / 1000)
      else 0
    averageHR :=
      if 0 < (hrStatsTail points).2.1 then
        some ((hrStatsTail points).1 / (hrStatsTail points).2.1)
      else none
    maxHR :=
      if 0 < (hrStatsTail points).2.2 then some (hrStatsTail points).2.2
      else none }

/-- The first declared activity of a TCX document: its laps (`none` when
the `Lap` node is absent). -/
structure TCXActivity (α : Type) where
  lap : Option (List (TCXLap α)) := none
  deriving Repr, DecidableEq

/-- `src/utils/tcxParser.ts` lines 4–95 — `parseTCXFile` on the parsed
first activity. -/
noncomputable def parseTCXFile (a : TCXActivity ℝ) : Except ParseError (Activity ℝ) :=
  let points :=
    (((a.lap.getD []).map (fun l => l.trackpoints)).flatten).filterMap
      tcxPointOfTrackpoint
  if points.length = 0 then .error .noTrackData
  else .ok (calculateTCXMetrics points a.lap)

/-- `src/unnamed/part_004` lines 120–123 — `convertSemicirclesToDegrees`:
`NaN` (here `none`) for a missing input, otherwise
`semicircles * 180 / 2^31`. -/
def convertSemicirclesToDegrees {α : Type} [LinearOrderedField α]
    (semicircles : Option α) : Option α :=
  semicircles.map (fun v => v * 180 / 2 ^ 31)

/-- One raw FIT `record` message: every historical spelling the adapter
probes for, each possibly absent. -/
structure FITRecord (α : Type) where
  positionLat : Option α := none
  position_lat : Option α := none
  enhancedLatitude : Option α := none
  positionLong : Option α := none
  position_long : Option α := none
  enhancedLongitude : Option α := none
  altitude : Option α := none
  enhancedAltitude : Option α := none
  enhanced_altitude : Option α := none
  timestamp : Option α := none
  heartRate : Option α := none
  heart_rate : Option α := none
  cadence : Option α := none
  power : Option α := none
  temperature : Option α := none
  deriving Repr, DecidableEq

/-- `src/unnamed/part_004` lines 74–97 — extraction of one `Point` from a
FIT record; `none` when the converted latitude or longitude is `NaN`. -/
def fitPointOfRecord {α : Type} [LinearOrderedField α]
    (r : FITRecord α) : Option (Point α) :=
  let lat := convertSemicirclesToDegrees
    (jsOr (jsOr r.positionLat r.position_lat) r.enhancedLatitude)
  let lng := convertSemicirclesToDegrees
    (jsOr (jsOr r.positionLong r.position_long) r.enhancedLongitude)
  match lat, lng with
  | some la, some ln =>
    some
      { lat := la
        lng := ln
        ele := jsOr (jsOr r.altitude r.enhancedAltitude) r.enhanced_altitude
        time := truthyOrNone r.timestamp
        hr := jsOr r.heartRate r.heart_rate
        cadence := r.cadence
        power := r.power
        temp := r.temperature }
  | _, _ => none

/-- One FIT `session` message: the authoritative totals the adapter may
prefer (sport/startTime metadata omitted). -/
structure FITSession (α : Type) where
  totalDistance : Option α := none
  totalAscent : Option α := none
  totalElapsedTime : Option α := none
  totalTimerTime : Option α := none
  avgHeartRate : Option α := none
  maxHeartRate : Option α := none
  deriving Repr, DecidableEq

/-- The decoded FIT message groups relevant to the adapter. -/
structure FITMessages (α : Type) where
  sessionMesgs : List (FITSession α) := []
  recordMesgs : List (FITRecord α) := []
  deriving Repr, DecidableEq

/-- A FIT container as seen through `@garmin/fitsdk`: the result of the
embedded integrity check and the decoded messages.  The external decoder
is modelled as data (`src/unnamed/part_002` declares it as an opaque
library class). -/
structure FITStream (α : Type) where
  integrityOk : Bool
  messages : FITMessages α
  deriving Repr, DecidableEq

/-- `src/unnamed/part_004` lines 125–174 — `calculateMetricsFromFIT`
(bounds omitted; the session argument is unused in the source). -/
noncomputable def calculateMetricsFromFIT (points : List (Point ℝ)) : Activity ℝ :=
  let totalDistance := recomputedDistance points
  let hrStats := hrStatsTail points
  let totalTime := recomputedTime points
  { points := points
    totalDistance := totalDistance
    totalElevationGain := recomputedElevGain points
    totalTime := totalTime
    averagePace := if 0 < totalTime then totalTime / totalDistance else 0
    averageHR := if 0 < hrStats.2.1 then some (hrStats.1 / hrStats.2.1) else none
    maxHR := if 0 < hrStats.2.2 then some hrStats.2.2 else none }

/-- `src/unnamed/part_004` lines 4–118 — `parseFITFile`: the integrity
check runs first and aborts with `IntegrityError` before any message is
decoded; then points are extracted, and session totals are preferred over
recomputed ones via `||`. -/
noncomputable def parseFITFile (s : FITStream ℝ) : Except ParseError (Activity ℝ) :=
  if ¬ s.integrityOk then .error .integrityError
  else
    let sessionMessage := s.messages.sessionMesgs.head?
    let points := s.messages.recordMesgs.filterMap fitPointOfRecord
    if points.length = 0 then .error .noTrackData
    else
      let m := calculateMetricsFromFIT points
      .ok
        { points := points
          totalDistance :=
            jsOrNumOpt (sessionMessage.bind (fun x => x.totalDistance)) m.totalDistance
          totalElevationGain :=
            jsOrNumOpt (sessionMessage.bind (fun x => x.totalAscent)) m.totalElevationGain
          totalTime :=
            jsOrNumOpt (sessionMessage.bind (fun x => x.totalElapsedTime))
              (jsOrNumOpt (sessionMessage.bind (fun x => x.totalTimerTime)) m.totalTime)
          averagePace := m.averagePace
          averageHR := jsOr (sessionMessage.bind (fun x => x.avgHeartRate)) m.averageHR
          maxHR := jsOr (sessionMessage.bind (fun x => x.maxHeartRate)) m.maxHR }

/-! ### Basic lemmas about `atan2` and `haversineDistance` -/

theorem arctan_nonneg {x : ℝ} (hx : 0 ≤ x) : 0 ≤ Real.arctan x := by
  have := Real.arctan_strictMono.monotone hx
  rwa [Real.arctan_zero] at this

theorem arctan_pos {x : ℝ} (hx : 0 < x) : 0 < Real.arctan x := by
  have := Real.arctan_strictMono hx
  rwa [Real.arctan_zero] at this

theorem atan2_nonneg {y x : ℝ} (hy : 0 ≤ y) : 0 ≤ atan2 y x := by
  have hpi := Real.pi_pos
  have harc := Real.neg_pi_div_two_lt_arctan (y / x)
  unfold atan2
  split_ifs with h1 h2 h3 h4
  all_goals first
    | exact arctan_nonneg (div_nonneg hy h1.le)
    | linarith

theorem atan2_pos {y x : ℝ} (hy : 0 < y) : 0 < atan2 y x := by
  have hpi := Real.pi_pos
  have harc := Real.neg_pi_div_two_lt_arctan (y / x)
  unfold atan2
  split_ifs with h1 h2 h3
  all_goals first
    | exact arctan_pos (div_pos hy h1)
    | linarith

theorem atan2_zero_of_pos {x : ℝ} (hx : 0 < x) : atan2 0 x = 0 := by
  unfold atan2
  rw [if_pos hx, zero_div, Real.arctan_zero]

/-- The `a` intermediate of the haversine formula. -/
noncomputable def havTerm (p1 p2 : Point ℝ) : ℝ :=
  Real.sin ((p2.lat - p1.lat) * Real.pi / 180 / 2) *
      Real.sin ((p2.lat - p1.lat) * Real.pi / 180 / 2) +
    Real.cos (p1.lat * Real.pi / 180) * Real.cos (p2.lat * Real.pi / 180) *
      (Real.sin ((p2.lng - p1.lng) * Real.pi / 180 / 2) *
        Real.sin ((p2.lng - p1.lng) * Real.pi / 180 / 2))

theorem haversineDistance_eq (p1 p2 : Point ℝ) :
    haversineDistance p1 p2 =
      6371000 * (2 * atan2 (Real.sqrt (havTerm p1 p2))
        (Real.sqrt (1 - havTerm p1 p2))) := rfl

theorem havTerm_symm (p1 p2 : Point ℝ) : havTerm p1 p2 = havTerm p2 p1 := by
  unfold havTerm
  have h1 : (p1.lat - p2.lat) * Real.pi / 180 / 2 =
      -((p2.lat - p1.lat) * Real.pi / 180 / 2) := by ring
  have h2 : (p1.lng - p2.lng) * Real.pi / 180 / 2 =
      -((p2.lng - p1.lng) * Real.pi / 180 / 2) := by ring
  rw [h1, h2, Real.sin_neg, Real.sin_neg]
  ring

theorem havTerm_self (p : Point ℝ) : havTerm p p = 0 := by
  unfold havTerm
  have h0 : (p.lat - p.lat) * Real.pi / 180 / 2 = 0 := by ring
  have h1 : (p.lng - p.lng) * Real.pi / 180 / 2 = 0 := by ring
  rw [h0, h1, Real.sin_zero]
  ring

theorem haversine_nonneg (p1 p2 : Point ℝ) : 0 ≤ haversineDistance p1 p2 := by
  rw [haversineDistance_eq]
  have h := atan2_nonneg (x := Real.sqrt (1 - havTerm p1 p2))
    (Real.sqrt_nonneg (havTerm p1 p2))
  linarith

/-- C9, part 1: the haversine distance is symmetric. -/
theorem haversine_symm_aux (p1 p2 : Point ℝ) :
    haversineDistance p1 p2 = haversineDistance p2 p1 := by
  rw [haversineDistance_eq, haversineDistance_eq, havTerm_symm]

/-- C9, part 2: the haversine distance of a point to itself is `0`. -/
theorem haversine_self_aux (p : Point ℝ) : haversineDistance p p = 0 := by
  rw [haversineDistance_eq, havTerm_self]
  rw [Real.sqrt_zero, sub_zero, Real.sqrt_one, atan2_zero_of_pos one_pos]
  ring

/-- C9: the geodesic (haversine) distance function is symmetric —
`distance(a,b) = distance(b,a)` for all points — and returns `0` for
coincident points. -/
theorem C9_haversine_symmetric_and_zero_on_diagonal :
    (∀ p1 p2 : Point ℝ, haversineDistance p1 p2 = haversineDistance p2 p1) ∧
    (∀ p : Point ℝ, haversineDistance p p = 0) :=
  ⟨haversine_symm_aux, haversine_self_aux⟩

/-! ### Lemmas about `smoothValue` -/

theorem range_drop (n m : ℕ) : (List.range n).drop m = List.range' m (n - m) := by
  apply List.ext_getElem
  · simp
  · intro i h1 h2
    simp only [List.getElem_drop, List.getElem_range, List.getElem_range'_1]

theorem filterMap_get_range' (f : ProcessedPoint ℝ → ℝ) :
    ∀ (n s : ℕ) (points : List (ProcessedPoint ℝ)), s + n ≤ points.length →
      (List.range' s n).filterMap (fun j => (points.get? j).map f) =
        ((points.drop s).take n).map f := by
  intro n
  induction n with
  | zero => simp
  | succ m ih =>
    intro s points h
    have hs : s < points.length := by omega
    rw [List.range'_succ, List.filterMap_cons, List.drop_eq_getElem_cons hs]
    have hget : points.get? s = some points[s] := List.get?_eq_get hs
    simp only [hget, Option.map_some', List.take_succ_cons, List.map_cons]
    rw [ih (s + 1) points (by omega)]

/-- The causal window read by `smoothValue`: the (up to `⌊w/2⌋`) points
immediately preceding index `i`. -/
def smoothWindow {α : Type} (points : List (ProcessedPoint α))
    (index windowSize : ℕ) : List (ProcessedPoint α) :=
  (points.take index).drop (index - windowSize / 2)

/-- C6 core: for an in-range index, `smoothValue` is the average of the
current raw value and the at most `⌊windowSize/2⌋` immediately preceding
entries — entries at indices `≥ index` are never read, and with no prior
entries the raw value passes through. -/
theorem smoothValue_eq_window_avg (points : List (ProcessedPoint ℝ)) (index : ℕ)
    (field : ProcessedPoint ℝ → ℝ) (value : ℝ) (windowSize : ℕ)
    (h : index ≤ points.length) :
    smoothValue points index field value windowSize =
      (value + ((smoothWindow points index windowSize).map field).sum) /
        (1 + ((smoothWindow points index windowSize).map field).length) := by
  unfold smoothValue smoothWindow
  have hwin : (points.take index).drop (index - windowSize / 2) =
      (points.drop (index - windowSize / 2)).take
        (index - (index - windowSize / 2)) := by
    rw [List.drop_take]
  by_cases hz : min points.length (index + windowSize / 2) - (index - windowSize / 2) = 0
  · rw [if_pos hz]
    have : index - windowSize / 2 = index := by omega
    rw [hwin, this]
    simp
  · rw [if_neg hz]
    rw [range_drop, filterMap_get_range' field _ _ points (by omega), hwin]

/-- With no entries available the smoothed value is the raw value. -/
theorem smoothValue_nil (field : ProcessedPoint ℝ → ℝ) (value : ℝ)
    (windowSize : ℕ) : smoothValue [] 0 field value windowSize = value := by
  rw [smoothValue_eq_window_avg _ _ _ _ _ (by simp)]
  simp [smoothWindow]

/-! ### Structural lemmas about `computeMetricsGo` -/

theorem computeMetricsGo_nil (p : Option (Point ℝ)) (c : ℝ)
    (pr : List (ProcessedPoint ℝ)) : computeMetricsGo p c pr [] = (pr, p, c) := rfl

theorem computeMetricsGo_cons (p : Option (Point ℝ)) (c : ℝ)
    (pr : List (ProcessedPoint ℝ)) (x : Point ℝ) (l : List (Point ℝ)) :
    computeMetricsGo p c pr (x :: l) =
      computeMetricsGo (some x) (c + stepSegmentDistance p x)
        (pr ++ [stepProcessedPoint p c pr x]) l := rfl

theorem stepProcessedPoint_point (p : Option (Point ℝ)) (c : ℝ)
    (pr : List (ProcessedPoint ℝ)) (x : Point ℝ) :
    (stepProcessedPoint p c pr x).point = x := rfl

theorem stepProcessedPoint_distance (p : Option (Point ℝ)) (c : ℝ)
    (pr : List (ProcessedPoint ℝ)) (x : Point ℝ) :
    (stepProcessedPoint p c pr x).distance = c + stepSegmentDistance p x := rfl

theorem stepSegmentDistance_nonneg (p : Option (Point ℝ)) (x : Point ℝ) :
    0 ≤ stepSegmentDistance p x := by
  unfold stepSegmentDistance
  split_ifs
  · exact haversine_nonneg _ _
  · exact le_refl 0

theorem computeMetricsGo_length (l : List (Point ℝ)) :
    ∀ (p : Option (Point ℝ)) (c : ℝ) (pr : List (ProcessedPoint ℝ)),
      (computeMetricsGo p c pr l).1.length = pr.length + l.length := by
  induction l with
  | nil => intro p c pr; simp [computeMetricsGo_nil]
  | cons x xs ih =>
    intro p c pr
    rw [computeMetricsGo_cons, ih]
    simp
    omega

theorem computeMetricsGo_extends (l : List (Point ℝ)) :
    ∀ (p : Option (Point ℝ)) (c : ℝ) (pr : List (ProcessedPoint ℝ)),
      ∃ t, (computeMetricsGo p c pr l).1 = pr ++ t := by
  induction l with
  | nil => intro p c pr; exact ⟨[], by simp [computeMetricsGo_nil]⟩
  | cons x xs ih =>
    intro p c pr
    obtain ⟨t, ht⟩ := ih (some x) (c + stepSegmentDistance p x)
      (pr ++ [stepProcessedPoint p c pr x])
    exact ⟨stepProcessedPoint p c pr x :: t, by
      rw [computeMetricsGo_cons, ht, List.append_assoc]; rfl⟩

theorem computeMetricsGo_map_point (l : List (Point ℝ)) :
    ∀ (p : Option (Point ℝ)) (c : ℝ) (pr : List (ProcessedPoint ℝ)),
      (computeMetricsGo p c pr l).1.map (fun q => q.point) =
        pr.map (fun q => q.point) ++ l := by
  induction l with
  | nil => intro p c pr; simp [computeMetricsGo_nil]
  | cons x xs ih =>
    intro p c pr
    rw [computeMetricsGo_cons, ih]
    simp [stepProcessedPoint_point]

theorem computeMetricsGo_distance_chain (l : List (Point ℝ)) :
    ∀ (p : Option (Point ℝ)) (c : ℝ) (pr : List (ProcessedPoint ℝ)),
      List.Chain' (· ≤ ·) (pr.map (fun q => q.distance)) →
      (∀ d ∈ (pr.map (fun q => q.distance)).getLast?, d ≤ c) →
      List.Chain' (· ≤ ·)
        ((computeMetricsGo p c pr l).1.map (fun q => q.distance)) := by
  induction l with
  | nil => intro p c pr hchain _; simpa [computeMetricsGo_nil] using hchain
  | cons x xs ih =>
    intro p c pr hchain hlast
    rw [computeMetricsGo_cons]
    have hseg := stepSegmentDistance_nonneg p x
    apply ih
    · rw [List.map_append, List.chain'_append]
      refine ⟨hchain, List.chain'_singleton _, ?_⟩
      intro a ha b hb
      simp [stepProcessedPoint_distance] at hb
      subst hb
      have := hlast a ha
      linarith
    · intro d hd
      rw [List.map_append, List.getLast?_append] at hd
      simp [stepProcessedPoint_distance] at hd
      subst hd
      linarith

theorem computeMetricsGo_append (l1 l2 : List (Point ℝ)) :
    ∀ (p : Option (Point ℝ)) (c : ℝ) (pr : List (ProcessedPoint ℝ)),
      computeMetricsGo p c pr (l1 ++ l2) =
        computeMetricsGo (computeMetricsGo p c pr l1).2.1
          (computeMetricsGo p c pr l1).2.2 (computeMetricsGo p c pr l1).1 l2 := by
  induction l1 with
  | nil => intro p c pr; rfl
  | cons x xs ih =>
    intro p c pr
    rw [List.cons_append, computeMetricsGo_cons, computeMetricsGo_cons]
    exact ih _ _ _

/-! ### Lemmas about `computeMetrics` and the `i = 0` origin point -/

theorem computeMetrics_length (pts : List (Point ℝ)) :
    (computeMetrics pts).length = pts.length := by
  unfold computeMetrics
  rw [computeMetricsGo_length]
  simp

theorem computeMetrics_map_point (pts : List (Point ℝ)) :
    (computeMetrics pts).map (fun q => q.point) = pts := by
  unfold computeMetrics
  rw [computeMetricsGo_map_point]
  simp

theorem computeMetrics_distance_chain (pts : List (Point ℝ)) :
    List.Chain' (· ≤ ·) ((computeMetrics pts).map (fun q => q.distance)) := by
  unfold computeMetrics
  apply computeMetricsGo_distance_chain <;> simp

theorem stepSegmentDistance_none (x : Point ℝ) : stepSegmentDistance none x = 0 := rfl

theorem stepSpeed_none (x : Point ℝ) : stepSpeed none x = 0 := by
  unfold stepSpeed
  rw [stepSegmentDistance_none]
  unfold stepTimeDelta
  simp only [Option.getD_none]
  cases hx : x.time with
  | none => norm_num
  | some t => simp [sub_self, zero_div, ite_self]

theorem stepRawPace_none (x : Point ℝ) : stepRawPace none x = 0 := by
  unfold stepRawPace
  rw [stepSpeed_none]
  norm_num

theorem stepRawGrade_none (x : Point ℝ) : stepRawGrade none x = 0 := by
  unfold stepRawGrade
  rw [stepSegmentDistance_none]
  norm_num

theorem computeMetrics_cons_head (x : Point ℝ) (l : List (Point ℝ)) :
    ∃ t, computeMetrics (x :: l) = stepProcessedPoint none 0 [] x :: t := by
  unfold computeMetrics
  rw [computeMetricsGo_cons]
  obtain ⟨t, ht⟩ := computeMetricsGo_extends l (some x)
    (0 + stepSegmentDistance none x) ([] ++ [stepProcessedPoint none 0 [] x])
  exact ⟨t, by rw [ht]; simp⟩

theorem origin_distance (x : Point ℝ) : (stepProcessedPoint none 0 [] x).distance = 0 := by
  rw [stepProcessedPoint_distance, stepSegmentDistance_none, add_zero]

theorem origin_pace (x : Point ℝ) : (stepProcessedPoint none 0 [] x).pace = 0 := by
  show smoothValue [] 0 (fun q => q.pace) (stepRawPace none x) 10 = 0
  rw [smoothValue_nil, stepRawPace_none]

theorem origin_grade (x : Point ℝ) : (stepProcessedPoint none 0 [] x).grade = 0 := by
  show smoothValue [] 0 (fun q => q.grade) (stepRawGrade none x) 5 = 0
  rw [smoothValue_nil, stepRawGrade_none]

/-! ### A closed form for `normalizeMetrics` -/

section NormalizeLemmas

variable {α : Type} [LinearOrderedField α] [FloorRing α]

/-- The pace population used by `normalizeMetrics`: all (positive) paces. -/
def pacePop (points : List (ProcessedPoint α)) : List α :=
  (points.map (fun p => p.pace)).filter (fun p => 0 < p)

/-- The heart-rate population used by `normalizeMetrics`: all points
holding a defined heart rate (including `0`). -/
def hrPop (points : List (ProcessedPoint α)) : List α :=
  points.filterMap (fun p => p.point.hr)

/-- The power population used by `normalizeMetrics`. -/
def powerPop (points : List (ProcessedPoint α)) : List α :=
  points.filterMap (fun p => p.point.power)

/-- The per-point update performed by `normalizeMetrics`. -/
def normalizePointUpd (points : List (ProcessedPoint α))
    (point : ProcessedPoint α) : ProcessedPoint α :=
  { point with
    normalizedPace := some (normalize point.pace (percentile (pacePop points) 0.05)
      (percentile (pacePop points) 0.95))
    normalizedHR :=
      if otruthy point.point.hr then
        some (normalize (point.point.hr.getD 0)
          (if 0 < (hrPop points).length then percentile (hrPop points) 0.05 else 0)
          (if 0 < (hrPop points).length then percentile (hrPop points) 0.95 else 0))
      else none
    normalizedPower :=
      if otruthy point.point.power then
        some (normalize (point.point.power.getD 0)
          (if 0 < (powerPop points).length then percentile (powerPop points) 0.05 else 0)
          (if 0 < (powerPop points).length then percentile (powerPop points) 0.95 else 0))
      else none }

theorem normalizeMetrics_eq_map (points : List (ProcessedPoint α)) :
    normalizeMetrics points = points.map (normalizePointUpd points) := rfl

theorem normalizeMetrics_length (points : List (ProcessedPoint α)) :
    (normalizeMetrics points).length = points.length := by
  rw [normalizeMetrics_eq_map, List.length_map]

theorem normalizePointUpd_point (points : List (ProcessedPoint α))
    (q : ProcessedPoint α) : (normalizePointUpd points q).point = q.point := rfl

theorem normalizePointUpd_distance (points : List (ProcessedPoint α))
    (q : ProcessedPoint α) : (normalizePointUpd points q).distance = q.distance := rfl

theorem normalizePointUpd_pace (points : List (ProcessedPoint α))
    (q : ProcessedPoint α) : (normalizePointUpd points q).pace = q.pace := rfl

theorem normalizePointUpd_grade (points : List (ProcessedPoint α))
    (q : ProcessedPoint α) : (normalizePointUpd points q).grade = q.grade := rfl

theorem normalizePointUpd_normalizedPace {α : Type} [LinearOrderedField α]
    [FloorRing α] (points : List (ProcessedPoint α)) (q : ProcessedPoint α) :
    (normalizePointUpd points q).normalizedPace =
      some (normalize q.pace (percentile (pacePop points) 0.05)
        (percentile (pacePop points) 0.95)) := rfl

theorem normalizePointUpd_normalizedHR {α : Type} [LinearOrderedField α]
    [FloorRing α] (points : List (ProcessedPoint α)) (q : ProcessedPoint α) :
    (normalizePointUpd points q).normalizedHR =
      (if otruthy q.point.hr then
        some (normalize (q.point.hr.getD 0)
          (if 0 < (hrPop points).length then percentile (hrPop points) 0.05 else 0)
          (if 0 < (hrPop points).length then percentile (hrPop points) 0.95 else 0))
      else none) := rfl

theorem normalizePointUpd_normalizedPower {α : Type} [LinearOrderedField α]
    [FloorRing α] (points : List (ProcessedPoint α)) (q : ProcessedPoint α) :
    (normalizePointUpd points q).normalizedPower =
      (if otruthy q.point.power then
        some (normalize (q.point.power.getD 0)
          (if 0 < (powerPop points).length then percentile (powerPop points) 0.05 else 0)
          (if 0 < (powerPop points).length then percentile (powerPop points) 0.95 else 0))
      else none) := rfl

theorem normalize_nonneg {α : Type} [LinearOrderedField α] (v mi ma : α) :
    0 ≤ normalize v mi ma := by
  unfold normalize
  split_ifs with h
  · norm_num
  · exact le_max_left 0 _

theorem normalize_le_one {α : Type} [LinearOrderedField α] (v mi ma : α) :
    normalize v mi ma ≤ 1 := by
  unfold normalize
  split_ifs with h
  · norm_num
  · exact max_le (by norm_num) (min_le_left 1 _)

theorem normalize_self {α : Type} [LinearOrderedField α] (v mi : α) :
    normalize v mi mi = 0.5 := by
  unfold normalize
  rw [if_pos rfl]

theorem percentile_eq {α : Type} [LinearOrderedField α] [FloorRing α]
    (values : List α) (p : α) :
    percentile values p =
      (if 0 ≤ ⌊((values.mergeSort (fun a b => a ≤ b)).length : α) * p⌋ then
        (values.mergeSort (fun a b => a ≤ b)).getD
          (⌊((values.mergeSort (fun a b => a ≤ b)).length : α) * p⌋).toNat 0
      else 0) := rfl

theorem percentile_singleton {α : Type} [LinearOrderedField α] [FloorRing α]
    (a p : α) (h0 : 0 ≤ p) (h1 : p < 1) : percentile [a] p = a := by
  rw [percentile_eq, List.mergeSort_singleton]
  have hfl : ⌊(([a] : List α).length : α) * p⌋ = 0 := by
    simp only [List.length_singleton, Nat.cast_one, one_mul]
    exact Int.floor_eq_zero_iff.mpr ⟨h0, h1⟩
  rw [hfl]
  simp

end NormalizeLemmas

theorem normalizeMetrics_map_point (pts : List (ProcessedPoint ℝ)) :
    (normalizeMetrics pts).map (fun q => q.point) = pts.map (fun q => q.point) := by
  rw [normalizeMetrics_eq_map, List.map_map]
  rfl

theorem normalizeMetrics_map_distance (pts : List (ProcessedPoint ℝ)) :
    (normalizeMetrics pts).map (fun q => q.distance) =
      pts.map (fun q => q.distance) := by
  rw [normalizeMetrics_eq_map, List.map_map]
  rfl

/-- C1: the Metrics Engine (`computeMetrics` followed by
`normalizeMetrics`) returns a processed sequence of exactly the same
length, in the same order (the underlying point of index `i` is the input
point `i`), whose cumulative `distance` is non-decreasing across the
sequence, and whose index-0 element has distance 0, pace 0 and grade 0. -/
theorem C1_metrics_engine_shape (pts : List (Point ℝ)) :
    (normalizeMetrics (computeMetrics pts)).length = pts.length ∧
    (normalizeMetrics (computeMetrics pts)).map (fun q => q.point) = pts ∧
    (∀ i : ℕ, i + 1 < (normalizeMetrics (computeMetrics pts)).length →
      ((normalizeMetrics (computeMetrics pts)).getD i default).distance ≤
        ((normalizeMetrics (computeMetrics pts)).getD (i + 1) default).distance) ∧
    (0 < pts.length →
      ((normalizeMetrics (computeMetrics pts)).getD 0 default).distance = 0 ∧
      ((normalizeMetrics (computeMetrics pts)).getD 0 default).pace = 0 ∧
      ((normalizeMetrics (computeMetrics pts)).getD 0 default).grade = 0) := by
  refine ⟨?_, ?_, ?_, ?_⟩
  · rw [normalizeMetrics_length, computeMetrics_length]
  · rw [normalizeMetrics_map_point, computeMetrics_map_point]
  · intro i hi
    have hi1 : i < (normalizeMetrics (computeMetrics pts)).length := by omega
    rw [List.getD_eq_getElem _ _ hi1, List.getD_eq_getElem _ _ hi]
    have hchain : List.Chain' (· ≤ ·)
        ((normalizeMetrics (computeMetrics pts)).map (fun q => q.distance)) := by
      rw [normalizeMetrics_map_distance]
      exact computeMetrics_distance_chain pts
    rw [List.chain'_iff_get] at hchain
    have h := hchain i (by simp only [List.length_map]; omega)
    simpa using h
  · intro h0
    cases pts with
    | nil => simp at h0
    | cons x l =>
      obtain ⟨t, ht⟩ := computeMetrics_cons_head x l
      rw [ht, normalizeMetrics_eq_map, List.map_cons]
      refine ⟨?_, ?_, ?_⟩
      · simp only [List.getD_cons_zero, normalizePointUpd_distance, origin_distance]
      · simp only [List.getD_cons_zero, normalizePointUpd_pace, origin_pace]
      · simp only [List.getD_cons_zero, normalizePointUpd_grade, origin_grade]

/-- Witness for C1 at a concrete two-point input. -/
theorem C1_metrics_engine_shape_witness :
    ((normalizeMetrics (computeMetrics
        [{ lat := 0, lng := 0 : Point ℝ }, { lat := 1, lng := 0 : Point ℝ }])).getD
        0 default).distance ≤
      ((normalizeMetrics (computeMetrics
        [{ lat := 0, lng := 0 : Point ℝ }, { lat := 1, lng := 0 : Point ℝ }])).getD
        1 default).distance ∧
    ((normalizeMetrics (computeMetrics
        [{ lat := 0, lng := 0 : Point ℝ }, { lat := 1, lng := 0 : Point ℝ }])).getD
        0 default).distance = 0 :=
  have h := C1_metrics_engine_shape
    [{ lat := 0, lng := 0 : Point ℝ }, { lat := 1, lng := 0 : Point ℝ }]
  ⟨h.2.2.1 0 (by rw [h.1]; norm_num), (h.2.2.2 (by norm_num)).1⟩

/-- `computeMetrics` is causal: the output over a prefix of the input is
the prefix of the output — no step reads a later point. -/
theorem computeMetrics_take (ps qs : List (Point ℝ)) :
    (computeMetrics (ps ++ qs)).take ps.length = computeMetrics ps := by
  unfold computeMetrics
  rw [computeMetricsGo_append]
  obtain ⟨t, ht⟩ := computeMetricsGo_extends qs (computeMetricsGo none 0 [] ps).2.1
    (computeMetricsGo none 0 [] ps).2.2 (computeMetricsGo none 0 [] ps).1
  rw [ht]
  have hlen : (computeMetricsGo none 0 [] ps).1.length = ps.length := by
    rw [computeMetricsGo_length]; simp
  rw [← hlen, List.take_left]

/-- C6: smoothing of pace and grade is causal and backward-only: the
smoothed value at index `i` is the average of the current raw value and
the up to `⌊windowSize/2⌋` immediately preceding already-smoothed values
(`smoothWindow`, a sublist of the first `i` entries only); with no prior
values available the raw value passes through; `computeMetrics` applies it
with window 10 for pace and window 5 for grade; and the whole of
`computeMetrics` never reads a point at an index greater than the current
one (output over a prefix is a prefix of the output). -/
theorem C6_smoothing_causal_backward :
    (∀ (points : List (ProcessedPoint ℝ)) (index : ℕ)
      (field : ProcessedPoint ℝ → ℝ) (value : ℝ) (windowSize : ℕ),
      index ≤ points.length →
      smoothValue points index field value windowSize =
        (value + ((smoothWindow points index windowSize).map field).sum) /
          (1 + ((smoothWindow points index windowSize).map field).length)) ∧
    (∀ (points : List (ProcessedPoint ℝ)) (field : ProcessedPoint ℝ → ℝ)
      (value : ℝ) (windowSize : ℕ),
      smoothValue points 0 field value windowSize = value) ∧
    (∀ (p : Option (Point ℝ)) (c : ℝ) (pr : List (ProcessedPoint ℝ)) (x : Point ℝ),
      (stepProcessedPoint p c pr x).pace =
        smoothValue pr pr.length (fun q => q.pace) (stepRawPace p x) 10 ∧
      (stepProcessedPoint p c pr x).grade =
        smoothValue pr pr.length (fun q => q.grade) (stepRawGrade p x) 5) ∧
    (∀ ps qs : List (Point ℝ),
      (computeMetrics (ps ++ qs)).take ps.length = computeMetrics ps) := by
  refine ⟨smoothValue_eq_window_avg, ?_, fun p c pr x => ⟨rfl, rfl⟩, computeMetrics_take⟩
  intro points field value windowSize
  rw [smoothValue_eq_window_avg _ _ _ _ _ (Nat.zero_le _)]
  simp [smoothWindow]

/-- C5: `normalizeMetrics` computes, for pace, heart rate and power
independently, the 5th and 95th percentile over all points holding a
defined (and, for pace, positive) raw value (`pacePop`/`hrPop`/`powerPop`)
and sets each normalized value via `normalize` (the clamp of
`(v - p5)/(p95 - p5)` into `[0,1]`); every defined normalized value lies
in `[0,1]`, and when the two percentiles coincide every defined normalized
value of that metric is exactly `0.5`. -/
theorem C5_percentile_normalization {α : Type} [LinearOrderedField α]
    [FloorRing α] (pts : List (ProcessedPoint α)) :
    (∀ q ∈ normalizeMetrics pts, ∀ v : α,
      (q.normalizedPace = some v ∨ q.normalizedHR = some v ∨
        q.normalizedPower = some v) → 0 ≤ v ∧ v ≤ 1) ∧
    (∀ q ∈ normalizeMetrics pts,
      q.normalizedPace = some (normalize q.pace (percentile (pacePop pts) 0.05)
        (percentile (pacePop pts) 0.95)) ∧
      (∀ h : α, q.point.hr = some h → h ≠ 0 →
        q.normalizedHR = some (normalize h (percentile (hrPop pts) 0.05)
          (percentile (hrPop pts) 0.95))) ∧
      (∀ w : α, q.point.power = some w → w ≠ 0 →
        q.normalizedPower = some (normalize w (percentile (powerPop pts) 0.05)
          (percentile (powerPop pts) 0.95)))) ∧
    (percentile (pacePop pts) 0.05 = percentile (pacePop pts) 0.95 →
      ∀ q ∈ normalizeMetrics pts, q.normalizedPace = some 0.5) ∧
    (percentile (hrPop pts) 0.05 = percentile (hrPop pts) 0.95 →
      ∀ q ∈ normalizeMetrics pts, ∀ v : α, q.normalizedHR = some v → v = 0.5) ∧
    (percentile (powerPop pts) 0.05 = percentile (powerPop pts) 0.95 →
      ∀ q ∈ normalizeMetrics pts, ∀ v : α, q.normalizedPower = some v → v = 0.5) := by
  refine ⟨?_, ?_, ?_, ?_, ?_⟩
  · intro q hq v hv
    rw [normalizeMetrics_eq_map] at hq
    obtain ⟨r, _, rfl⟩ := List.mem_map.mp hq
    rcases hv with h | h | h
    · rw [normalizePointUpd_normalizedPace] at h
      obtain rfl := (Option.some_inj.mp h).symm
      exact ⟨normalize_nonneg _ _ _, normalize_le_one _ _ _⟩
    · rw [normalizePointUpd_normalizedHR] at h
      split_ifs at h with ht hlen
      all_goals simp only [Option.some.injEq] at h
      all_goals subst h
      all_goals exact ⟨normalize_nonneg _ _ _, normalize_le_one _ _ _⟩
    · rw [normalizePointUpd_normalizedPower] at h
      split_ifs at h with ht hlen
      all_goals simp only [Option.some.injEq] at h
      all_goals subst h
      all_goals exact ⟨normalize_nonneg _ _ _, normalize_le_one _ _ _⟩
  · intro q hq
    rw [normalizeMetrics_eq_map] at hq
    obtain ⟨r, hrmem, rfl⟩ := List.mem_map.mp hq
    refine ⟨?_, ?_, ?_⟩
    · rw [normalizePointUpd_normalizedPace, normalizePointUpd_pace]
    · intro h hh hne
      rw [normalizePointUpd_point] at hh
      rw [normalizePointUpd_normalizedHR]
      have ht : otruthy r.point.hr = true := by
        rw [hh]; simp [otruthy, hne]
      rw [if_pos ht]
      have hlen : 0 < (hrPop pts).length := by
        apply List.length_pos.mpr
        apply List.ne_nil_of_mem (a := h)
        exact List.mem_filterMap.mpr ⟨r, hrmem, hh⟩
      rw [if_pos hlen, if_pos hlen, hh]
      simp
    · intro w hw hne
      rw [normalizePointUpd_point] at hw
      rw [normalizePointUpd_normalizedPower]
      have ht : otruthy r.point.power = true := by
        rw [hw]; simp [otruthy, hne]
      rw [if_pos ht]
      have hlen : 0 < (powerPop pts).length := by
        apply List.length_pos.mpr
        apply List.ne_nil_of_mem (a := w)
        exact List.mem_filterMap.mpr ⟨r, hrmem, hw⟩
      rw [if_pos hlen, if_pos hlen, hw]
      simp
  · intro hp q hq
    rw [normalizeMetrics_eq_map] at hq
    obtain ⟨r, _, rfl⟩ := List.mem_map.mp hq
    rw [normalizePointUpd_normalizedPace, hp, normalize_self]
  · intro hp q hq v hv
    rw [normalizeMetrics_eq_map] at hq
    obtain ⟨r, _, rfl⟩ := List.mem_map.mp hq
    rw [normalizePointUpd_normalizedHR] at hv
    split_ifs at hv with ht hlen
    all_goals simp only [Option.some.injEq] at hv
    all_goals subst hv
    all_goals first
      | rw [hp, normalize_self]
      | rw [normalize_self]
  · intro hp q hq v hv
    rw [normalizeMetrics_eq_map] at hq
    obtain ⟨r, _, rfl⟩ := List.mem_map.mp hq
    rw [normalizePointUpd_normalizedPower] at hv
    split_ifs at hv with ht hlen
    all_goals simp only [Option.some.injEq] at hv
    all_goals subst hv
    all_goals first
      | rw [hp, normalize_self]
      | rw [normalize_self]

/-- Witness for C5 at a concrete one-point input over `ℚ` (all raw paces
equal, so both pace percentiles coincide and the normalized pace is
exactly `0.5`). -/
theorem C5_percentile_normalization_witness :
    (normalizePointUpd
        [{ point := { lat := 0, lng := 0 }, distance := 0, pace := 3,
           grade := 0, speed := 0 : ProcessedPoint ℚ }]
        { point := { lat := 0, lng := 0 }, distance := 0, pace := 3,
          grade := 0, speed := 0 }).normalizedPace = some 0.5 := by
  have hpop : pacePop
      [{ point := { lat := 0, lng := 0 }, distance := 0, pace := 3,
         grade := 0, speed := 0 : ProcessedPoint ℚ }] = [3] := by
    simp [pacePop]
  refine (C5_percentile_normalization
    [{ point := { lat := 0, lng := 0 }, distance := 0, pace := 3,
       grade := 0, speed := 0 : ProcessedPoint ℚ }]).2.2.1 ?_ _ ?_
  · rw [hpop, percentile_singleton 3 0.05 (by norm_num) (by norm_num),
      percentile_singleton 3 0.95 (by norm_num) (by norm_num)]
  · rw [normalizeMetrics_eq_map]
    simp

/-- Witness for C6 at a concrete singleton input and index 1. -/
theorem C6_smoothing_causal_backward_witness :
    smoothValue [(default : ProcessedPoint ℝ)] 1 (fun q => q.pace) 7 10 =
      (7 + ((smoothWindow [(default : ProcessedPoint ℝ)] 1 10).map
        (fun q => q.pace)).sum) /
      (1 + ((smoothWindow [(default : ProcessedPoint ℝ)] 1 10).map
        (fun q => q.pace)).length) :=
  C6_smoothing_causal_backward.1 [(default : ProcessedPoint ℝ)] 1
    (fun q => q.pace) 7 10 (by norm_num)

/-! ### Lemmas about `detectSplits` -/

section SplitLemmas

variable {α : Type} [LinearOrderedField α]

theorem mkSplit_distance (n : ℕ) (acc : α) (slicePts : List (ProcessedPoint α)) :
    (mkSplit n acc slicePts).distance = acc := rfl

theorem mkSplit_averageHR (n : ℕ) (acc : α) (slicePts : List (ProcessedPoint α)) :
    (mkSplit n acc slicePts).averageHR =
      (if 0 < sliceAvgHR slicePts then some (sliceAvgHR slicePts) else none) := rfl

theorem detectSplitsGo_distance_ge (points : List (ProcessedPoint α))
    (d : α) (items : List (ℕ × ProcessedPoint α × ProcessedPoint α)) :
    ∀ (start : ℕ) (acc : α) (splits : List (Split α)),
      (∀ s ∈ splits, d ≤ s.distance) →
      ∀ s ∈ detectSplitsGo points d start acc splits items, d ≤ s.distance := by
  induction items with
  | nil => intro start acc splits hinv s hs; exact hinv s hs
  | cons item rest ih =>
    intro start acc splits hinv s hs
    obtain ⟨i, prevPt, currPt⟩ := item
    rw [detectSplitsGo] at hs
    split_ifs at hs with hclose
    · refine ih i 0 _ ?_ s hs
      intro s' hs'
      rcases List.mem_append.mp hs' with h | h
      · exact hinv s' h
      · rw [List.mem_singleton.mp h, mkSplit_distance]
        exact hclose
    · exact ih start _ splits hinv s hs

/-- Every emitted split records an accumulated distance of at least the
requested split distance: splits close only when the accumulator has
reached it, and no trailing shorter slice is emitted. -/
theorem detectSplits_distance_ge (points : List (ProcessedPoint α)) (d : α) :
    ∀ s ∈ detectSplits points d, d ≤ s.distance := by
  intro s hs
  exact detectSplitsGo_distance_ge points d _ 0 0 [] (by simp) s hs

theorem enumFrom_fst_pairwise {β : Type} :
    ∀ (l : List β) (n : ℕ),
      List.Pairwise (fun a b : ℕ × β => a.1 < b.1) (List.enumFrom n l) := by
  intro l
  induction l with
  | nil => intro n; simp
  | cons x xs ih =>
    intro n
    rw [List.enumFrom_cons]
    refine List.Pairwise.cons ?_ (ih (n + 1))
    intro y hy
    have := List.mem_enumFrom hy
    omega

/-- The split-slice invariant: every split emitted by the scanning loop
reports, as `averageHR`, the `sliceAvgHR` of some slice
`points.slice(start, i + 1)` of the scanned sequence (filtered through the
`> 0` guard). -/
def splitHRInv (points : List (ProcessedPoint α)) (s : Split α) : Prop :=
  ∃ st i : ℕ, st < i ∧ i < points.length ∧
    s.averageHR =
      (if 0 < sliceAvgHR ((points.drop st).take (i + 1 - st)) then
        some (sliceAvgHR ((points.drop st).take (i + 1 - st)))
      else none)

theorem detectSplitsGo_averageHR (points : List (ProcessedPoint α)) (d : α) :
    ∀ (items : List (ℕ × ProcessedPoint α × ProcessedPoint α))
      (start : ℕ) (acc : α) (splits : List (Split α)),
      (∀ x ∈ items, start < x.1 ∧ x.1 < points.length) →
      List.Pairwise (fun a b : ℕ × ProcessedPoint α × ProcessedPoint α =>
        a.1 < b.1) items →
      (∀ s ∈ splits, splitHRInv points s) →
      ∀ s ∈ detectSplitsGo points d start acc splits items,
        splitHRInv points s := by
  intro items
  induction items with
  | nil => intro start acc splits _ _ hinv s hs; exact hinv s hs
  | cons item rest ih =>
    intro start acc splits hbound hpair hinv s hs
    obtain ⟨i, prevPt, currPt⟩ := item
    rw [detectSplitsGo] at hs
    have hb := hbound (i, prevPt, currPt) (List.mem_cons_self _ _)
    split_ifs at hs with hclose
    · refine ih i 0 _ ?_ (hpair.of_cons) ?_ s hs
      · intro x hx
        have hlt := (List.pairwise_cons.mp hpair).1 x hx
        exact ⟨hlt, (hbound x (List.mem_cons_of_mem _ hx)).2⟩
      · intro s' hs'
        rcases List.mem_append.mp hs' with h | h
        · exact hinv s' h
        · rw [List.mem_singleton.mp h]
          exact ⟨start, i, hb.1, hb.2, mkSplit_averageHR _ _ _⟩
    · exact ih start _ splits
        (fun x hx => hbound x (List.mem_cons_of_mem _ hx))
        (hpair.of_cons) hinv s hs

/-- C7 amended core: every split emitted by `detectSplits` carries, when
present, the `sliceAvgHR` of its slice — the sum of the heart rates with
missing values contributing `0`, divided by the number of **all** points
of the slice. -/
theorem detectSplits_averageHR (points : List (ProcessedPoint α)) (d : α) :
    ∀ s ∈ detectSplits points d, splitHRInv points s := by
  intro s hs
  unfold detectSplits at hs
  refine detectSplitsGo_averageHR points d _ 0 0 [] ?_ ?_ (by simp) s hs
  · intro x hx
    have h := List.mem_enumFrom hx
    have hlen : (points.zip points.tail).length ≤ points.length - 1 := by
      rw [List.length_zip]
      cases points <;> simp
    omega
  · exact enumFrom_fst_pairwise _ 1

end SplitLemmas

/-- The synthetic activity of C2: 26 samples spaced uniformly every
100 distance-units over 2,500 units, one per minute. -/
def uniformTrack : List (ProcessedPoint ℚ) :=
  [{ point := { lat := 0, lng := 0, time := some 0 }, distance := 0, pace := 0, grade := 0, speed := 0 },
   { point := { lat := 0, lng := 0, time := some 60000 }, distance := 100, pace := 0, grade := 0, speed := 0 },
   { point := { lat := 0, lng := 0, time := some 120000 }, distance := 200, pace := 0, grade := 0, speed := 0 },
   { point := { lat := 0, lng := 0, time := some 180000 }, distance := 300, pace := 0, grade := 0, speed := 0 },
   { point := { lat := 0, lng := 0, time := some 240000 }, distance := 400, pace := 0, grade := 0, speed := 0 },
   { point := { lat := 0, lng := 0, time := some 300000 }, distance := 500, pace := 0, grade := 0, speed := 0 },
   { point := { lat := 0, lng := 0, time := some 360000 }, distance := 600, pace := 0, grade := 0, speed := 0 },
   { point := { lat := 0, lng := 0, time := some 420000 }, distance := 700, pace := 0, grade := 0, speed := 0 },
   { point := { lat := 0, lng := 0, time := some 480000 }, distance := 800, pace := 0, grade := 0, speed := 0 },
   { point := { lat := 0, lng := 0, time := some 540000 }, distance := 900, pace := 0, grade := 0, speed := 0 },
   { point := { lat := 0, lng := 0, time := some 600000 }, distance := 1000, pace := 0, grade := 0, speed := 0 },
   { point := { lat := 0, lng := 0, time := some 660000 }, distance := 1100, pace := 0, grade := 0, speed := 0 },
   { point := { lat := 0, lng := 0, time := some 720000 }, distance := 1200, pace := 0, grade := 0, speed := 0 },
   { point := { lat := 0, lng := 0, time := some 780000 }, distance := 1300, pace := 0, grade := 0, speed := 0 },
   { point := { lat := 0, lng := 0, time := some 840000 }, distance := 1400, pace := 0, grade := 0, speed := 0 },
   { point := { lat := 0, lng := 0, time := some 900000 }, distance := 1500, pace := 0, grade := 0, speed := 0 },
   { point := { lat := 0, lng := 0, time := some 960000 }, distance := 1600, pace := 0, grade := 0, speed := 0 },
   { point := { lat := 0, lng := 0, time := some 1020000 }, distance := 1700, pace := 0, grade := 0, speed := 0 },
   { point := { lat := 0, lng := 0, time := some 1080000 }, distance := 1800, pace := 0, grade := 0, speed := 0 },
   { point := { lat := 0, lng := 0, time := some 1140000 }, distance := 1900, pace := 0, grade := 0, speed := 0 },
   { point := { lat := 0, lng := 0, time := some 1200000 }, distance := 2000, pace := 0, grade := 0, speed := 0 },
   { point := { lat := 0, lng := 0, time := some 1260000 }, distance := 2100, pace := 0, grade := 0, speed := 0 },
   { point := { lat := 0, lng := 0, time := some 1320000 }, distance := 2200, pace := 0, grade := 0, speed := 0 },
   { point := { lat := 0, lng := 0, time := some 1380000 }, distance := 2300, pace := 0, grade := 0, speed := 0 },
   { point := { lat := 0, lng := 0, time := some 1440000 }, distance := 2400, pace := 0, grade := 0, speed := 0 },
   { point := { lat := 0, lng := 0, time := some 1500000 }, distance := 2500, pace := 0, grade := 0, speed := 0 }]

theorem dsg_step_lt {α : Type} [LinearOrderedField α]
    {points : List (ProcessedPoint α)} {d acc : α} {start i : ℕ}
    {splits : List (Split α)} {prevPt currPt : ProcessedPoint α}
    {rest : List (ℕ × ProcessedPoint α × ProcessedPoint α)} (acc2 : α)
    (hacc : acc + (currPt.distance - prevPt.distance) = acc2)
    (h : ¬ d ≤ acc2) :
    detectSplitsGo points d start acc splits ((i, prevPt, currPt) :: rest) =
      detectSplitsGo points d start acc2 splits rest := by
  rw [detectSplitsGo, hacc, if_neg h]

theorem dsg_step_ge {α : Type} [LinearOrderedField α]
    {points : List (ProcessedPoint α)} {d acc : α} {start i : ℕ}
    {splits : List (Split α)} {prevPt currPt : ProcessedPoint α}
    {rest : List (ℕ × ProcessedPoint α × ProcessedPoint α)} (acc2 : α)
    (hacc : acc + (currPt.distance - prevPt.distance) = acc2)
    (h : d ≤ acc2) :
    detectSplitsGo points d start acc splits ((i, prevPt, currPt) :: rest) =
      detectSplitsGo points d i 0
        (splits ++ [mkSplit splits.length acc2
          ((points.drop start).take (i + 1 - start))]) rest := by
  rw [detectSplitsGo, hacc, if_pos h]

/-- C2: `detectSplits` closes a split exactly when the accumulated
distance since the last boundary reaches or exceeds `splitDistance`
(so every emitted split records distance `≥ splitDistance`, and a
trailing partial slice is never emitted), and on the synthetic activity
sampled uniformly every 100 units over 2,500 units it yields exactly 2
splits — each spanning 1,000 units and (by the recorded 600-second
durations) running from one boundary point inclusive to the closing
point inclusive — while the trailing 500 units produce none. -/
theorem C2_detectSplits_boundaries :
    (∀ (α : Type) [LinearOrderedField α]
      (points : List (ProcessedPoint α)) (d : α),
      ∀ s ∈ detectSplits points d, d ≤ s.distance) ∧
    detectSplits uniformTrack 1000 =
      [{ index := 0, distance := 1000, time := 600, pace := 0,
         elevationGain := 0, averageHR := none },
       { index := 1, distance := 1000, time := 600, pace := 0,
         elevationGain := 0, averageHR := none }] := by
  constructor
  · intro α inst points d s hs
    exact detectSplits_distance_ge points d s hs
  · simp only [detectSplits, uniformTrack, List.tail_cons, List.zip_cons_cons,
      List.zip_nil_right, List.enumFrom_cons, List.enumFrom_nil]
    rw [dsg_step_lt 100 (by norm_num) (by norm_num)]
    rw [dsg_step_lt 200 (by norm_num) (by norm_num)]
    rw [dsg_step_lt 300 (by norm_num) (by norm_num)]
    rw [dsg_step_lt 400 (by norm_num) (by norm_num)]
    rw [dsg_step_lt 500 (by norm_num) (by norm_num)]
    rw [dsg_step_lt 600 (by norm_num) (by norm_num)]
    rw [dsg_step_lt 700 (by norm_num) (by norm_num)]
    rw [dsg_step_lt 800 (by norm_num) (by norm_num)]
    rw [dsg_step_lt 900 (by norm_num) (by norm_num)]
    rw [dsg_step_ge 1000 (by norm_num) (by norm_num)]
    rw [dsg_step_lt 100 (by norm_num) (by norm_num)]
    rw [dsg_step_lt 200 (by norm_num) (by norm_num)]
    rw [dsg_step_lt 300 (by norm_num) (by norm_num)]
    rw [dsg_step_lt 400 (by norm_num) (by norm_num)]
    rw [dsg_step_lt 500 (by norm_num) (by norm_num)]
    rw [dsg_step_lt 600 (by norm_num) (by norm_num)]
    rw [dsg_step_lt 700 (by norm_num) (by norm_num)]
    rw [dsg_step_lt 800 (by norm_num) (by norm_num)]
    rw [dsg_step_lt 900 (by norm_num) (by norm_num)]
    rw [dsg_step_ge 1000 (by norm_num) (by norm_num)]
    rw [dsg_step_lt 100 (by norm_num) (by norm_num)]
    rw [dsg_step_lt 200 (by norm_num) (by norm_num)]
    rw [dsg_step_lt 300 (by norm_num) (by norm_num)]
    rw [dsg_step_lt 400 (by norm_num) (by norm_num)]
    rw [dsg_step_lt 500 (by norm_num) (by norm_num)]
    rw [detectSplitsGo]
    norm_num [mkSplit, sliceTime, sliceAvgPace, sliceAvgHR, sliceElevGain,
      otruthy]

/-- Witness for C2: the first emitted split of the uniform track has
distance at least the requested 1,000. -/
theorem C2_detectSplits_boundaries_witness :
    (1000 : ℚ) ≤
      (({ index := 0, distance := 1000, time := 600, pace := 0,
          elevationGain := 0, averageHR := none } : Split ℚ)).distance := by
  have h := C2_detectSplits_boundaries
  exact h.1 ℚ uniformTrack 1000 _ (by rw [h.2]; simp)



/-- The two-point track of C7: the first point has no heart rate, the
second carries 100 bpm, and one full 1,000-unit split is emitted. -/
def hrGapTrack : List (ProcessedPoint ℚ) :=
  [{ point := { lat := 0, lng := 0 }, distance := 0, pace := 0, grade := 0,
     speed := 0 },
   { point := { lat := 0, lng := 0, hr := some 100 }, distance := 1000,
     pace := 0, grade := 0, speed := 0 }]

/-- C7 counterexample: on `hrGapTrack` the emitted split stores
`averageHR = 50` — the missing heart rate of the first point was counted
as `0` and the denominator counted both points — whereas the mean over the
points carrying heart rate is `100`. -/
theorem C7_counterexample_hr_mean :
    detectSplits hrGapTrack 1000 =
      [{ index := 0, distance := 1000, time := 0, pace := 0,
         elevationGain := 0, averageHR := some 50 }] ∧
    (50 : ℚ) ≠ 100 := by
  constructor
  · simp only [detectSplits, hrGapTrack, List.tail_cons, List.zip_cons_cons,
      List.zip_nil_right, List.enumFrom_cons, List.enumFrom_nil]
    rw [dsg_step_ge 1000 (by norm_num) (by norm_num)]
    rw [detectSplitsGo]
    norm_num [mkSplit, sliceTime, sliceAvgPace, sliceAvgHR, sliceElevGain,
      otruthy]
  · norm_num

/-- C7 amended: for every emitted split, `averageHR` is (when present) the
`sliceAvgHR` of its slice — heart-rate sums with missing values counted as
`0` and divided by the number of **all** points of the slice, not only
those carrying heart rate; it is stored only when that quotient is
positive. -/
theorem C7_split_averageHR_semantics :
    ∀ (α : Type) [LinearOrderedField α]
      (points : List (ProcessedPoint α)) (d : α),
      ∀ s ∈ detectSplits points d, ∃ st i : ℕ, st < i ∧ i < points.length ∧
        s.averageHR =
          (if 0 < sliceAvgHR ((points.drop st).take (i + 1 - st)) then
            some (sliceAvgHR ((points.drop st).take (i + 1 - st)))
          else none) := by
  intro α inst points d s hs
  exact detectSplits_averageHR points d s hs

/-- Witness for C7's amended statement on `hrGapTrack`. -/
theorem C7_split_averageHR_semantics_witness :
    ∃ st i : ℕ, st < i ∧ i < hrGapTrack.length ∧
      (({ index := 0, distance := 1000, time := 0, pace := 0,
          elevationGain := 0, averageHR := some 50 } : Split ℚ)).averageHR =
        (if 0 < sliceAvgHR ((hrGapTrack.drop st).take (i + 1 - st)) then
          some (sliceAvgHR ((hrGapTrack.drop st).take (i + 1 - st)))
        else none) :=
  C7_split_averageHR_semantics ℚ hrGapTrack 1000 _ (by
    have heval : detectSplits hrGapTrack 1000 =
        [{ index := 0, distance := 1000, time := 0, pace := 0,
           elevationGain := 0, averageHR := some 50 }] := by
      simp only [detectSplits, hrGapTrack, List.tail_cons, List.zip_cons_cons,
        List.zip_nil_right, List.enumFrom_cons, List.enumFrom_nil]
      rw [dsg_step_ge 1000 (by norm_num) (by norm_num)]
      rw [detectSplitsGo]
      norm_num [mkSplit, sliceTime, sliceAvgPace, sliceAvgHR, sliceElevGain,
        otruthy]
    rw [heval]
    simp)

/-! ### C10: heart rate `0` behaves as absent -/

theorem maxHRScan_foldl_aux {α : Type} [LinearOrderedField α] :
    ∀ (l : List (ℕ × ProcessedPoint α)) (st : α × ℤ),
      (∀ x ∈ l, otruthy x.2.point.hr = false) →
      l.foldl (fun st ip =>
        if otruthy ip.2.point.hr ∧ st.1 < ip.2.point.hr.getD 0 then
          (ip.2.point.hr.getD 0, (ip.1 : ℤ))
        else st) st = st := by
  intro l
  induction l with
  | nil => intro st _; rfl
  | cons x xs ih =>
    intro st hx
    rw [List.foldl_cons]
    have h1 := hx x (List.mem_cons_self x xs)
    rw [if_neg (by simp [h1])]
    exact ih st fun y hy => hx y (List.mem_cons_of_mem _ hy)

theorem maxHRScan_of_no_truthy_hr {α : Type} [LinearOrderedField α]
    (pts : List (ProcessedPoint α))
    (h : ∀ q ∈ pts, otruthy q.point.hr = false) :
    maxHRScan pts = (0, -1) := by
  unfold maxHRScan
  apply maxHRScan_foldl_aux
  intro x hx
  have h3 := List.mem_enumFrom hx
  rw [h3.2.2]
  exact h _ (List.getElem_mem _)

/-- C10: a heart rate of exactly `0` is indistinguishable from an absent
one at the public interface: `normalizeMetrics` leaves `normalizedHR`
undefined for such a point while the `0` still enters the percentile
population `hrPop`, and `findMaxHRSegment` skips such points, so an
activity whose only heart-rate samples are `0` (or absent) yields no
max-heart-rate segment. -/
theorem C10_zero_hr_indistinguishable_from_absent :
    (∀ (α : Type) [LinearOrderedField α] [FloorRing α]
      (pts : List (ProcessedPoint α)) (i : ℕ), i < pts.length →
      (pts.getD i default).point.hr = some 0 →
      ((normalizeMetrics pts).getD i default).normalizedHR = none ∧
      (0 : α) ∈ hrPop pts) ∧
    (∀ (α : Type) [LinearOrderedField α] (pts : List (ProcessedPoint α)),
      (∀ q ∈ pts, q.point.hr = none ∨ q.point.hr = some 0) →
      findMaxHRSegment pts = none) := by
  constructor
  · intro α inst1 inst2 pts i hi hh
    rw [List.getD_eq_getElem _ _ hi] at hh
    have hi2 : i < (normalizeMetrics pts).length := by
      rw [normalizeMetrics_length]; exact hi
    constructor
    · rw [List.getD_eq_getElem _ _ hi2]
      simp only [normalizeMetrics_eq_map, List.getElem_map]
      rw [normalizePointUpd_normalizedHR, hh]
      simp [otruthy]
    · exact List.mem_filterMap.mpr ⟨pts[i], List.getElem_mem hi, hh⟩
  · intro α inst pts hall
    have hfalse : ∀ q ∈ pts, otruthy q.point.hr = false := by
      intro q hq
      rcases hall q hq with h | h <;> simp [otruthy, h]
    have hscan : maxHRScan pts = (0, -1) :=
      maxHRScan_of_no_truthy_hr pts hfalse
    simp only [findMaxHRSegment, hscan]
    norm_num

/-- The single-point track of C10's witness: its only heart-rate sample is
exactly `0`. -/
def zeroHRTrack : List (ProcessedPoint ℚ) :=
  [{ point := { lat := 0, lng := 0, hr := some 0 }, distance := 0, pace := 0,
     grade := 0, speed := 0 }]

/-- Witness for C10 on `zeroHRTrack`. -/
theorem C10_zero_hr_indistinguishable_from_absent_witness :
    ((normalizeMetrics zeroHRTrack).getD 0 default).normalizedHR = none ∧
    findMaxHRSegment zeroHRTrack = none :=
  ⟨(C10_zero_hr_indistinguishable_from_absent.1 ℚ zeroHRTrack 0 (by norm_num [zeroHRTrack])
      (by rfl)).1,
   C10_zero_hr_indistinguishable_from_absent.2 ℚ zeroHRTrack (by
    intro q hq
    rw [List.mem_singleton.mp hq]
    right
    rfl)⟩



/-! ### C8: the binary adapter's integrity check -/

/-- C8: `parseFITFile` runs the embedded integrity check before decoding
any message; when the check fails it returns `IntegrityError` and produces
no `Activity` (hence no points) whatever the container holds. -/
theorem C8_integrity_check_failure :
    ∀ s : FITStream ℝ, s.integrityOk = false →
      parseFITFile s = Except.error ParseError.integrityError ∧
      ∀ act : Activity ℝ, parseFITFile s ≠ Except.ok act := by
  intro s hs
  have herr : parseFITFile s = Except.error ParseError.integrityError := by
    unfold parseFITFile
    rw [hs]
    simp
  exact ⟨herr, fun act hact => by rw [herr] at hact; exact Except.noConfusion hact⟩

/-- Witness for C8: a container whose integrity check fails, with records
present that are never decoded. -/
theorem C8_integrity_check_failure_witness :
    parseFITFile
        { integrityOk := false
          messages := { sessionMesgs := []
                        recordMesgs := [{ positionLat := some 1
                                          positionLong := some 1 }] } } =
      Except.error ParseError.integrityError :=
  (C8_integrity_check_failure _ rfl).1



/-! ### C4: the recomputed average pace -/

theorem calculateBasicMetrics_averagePace (pts : List (Point ℝ)) :
    (calculateBasicMetrics pts).averagePace =
      (if 0 < recomputedTime pts then
        recomputedTime pts / recomputedDistance pts
      else 0) := rfl

theorem calculateBasicMetrics_totalTime (pts : List (Point ℝ)) :
    (calculateBasicMetrics pts).totalTime = recomputedTime pts := rfl

theorem calculateBasicMetrics_totalDistance (pts : List (Point ℝ)) :
    (calculateBasicMetrics pts).totalDistance = recomputedDistance pts := rfl

theorem calculateMetricsFromFIT_averagePace (pts : List (Point ℝ)) :
    (calculateMetricsFromFIT pts).averagePace =
      (if 0 < recomputedTime pts then
        recomputedTime pts / recomputedDistance pts
      else 0) := rfl

theorem calculateMetricsFromFIT_totalTime (pts : List (Point ℝ)) :
    (calculateMetricsFromFIT pts).totalTime = recomputedTime pts := rfl

theorem calculateMetricsFromFIT_totalDistance (pts : List (Point ℝ)) :
    (calculateMetricsFromFIT pts).totalDistance = recomputedDistance pts := rfl

theorem calculateTCXMetrics_averagePace (pts : List (Point ℝ))
    (lap : Option (List (TCXLap ℝ))) :
    (calculateTCXMetrics pts lap).averagePace =
      (if 0 < tcxActivityTime pts lap then
        tcxActivityTime pts lap / (tcxActivityDistance pts lap / 1000)
      else 0) := rfl

theorem calculateTCXMetrics_totalTime (pts : List (Point ℝ))
    (lap : Option (List (TCXLap ℝ))) :
    (calculateTCXMetrics pts lap).totalTime = tcxActivityTime pts lap := rfl

theorem calculateTCXMetrics_totalDistance (pts : List (Point ℝ))
    (lap : Option (List (TCXLap ℝ))) :
    (calculateTCXMetrics pts lap).totalDistance =
      jsOrNum (tcxActivityDistance pts lap) (recomputedDistance pts) := rfl

theorem calculateTCXMetrics_points (pts : List (Point ℝ))
    (lap : Option (List (TCXLap ℝ))) :
    (calculateTCXMetrics pts lap).points = pts := rfl

/-- The two points of the C4 counterexample: one degree of latitude apart,
timestamps 100 seconds apart, no laps with declared totals. -/
def tcxP0 : Point ℝ := { lat := 0, lng := 0, time := some 0 }

/-- Second point of the C4 counterexample. -/
def tcxP1 : Point ℝ := { lat := 1, lng := 0, time := some 100000 }

theorem haversine_tcxP0_tcxP1_pos : 0 < haversineDistance tcxP0 tcxP1 := by
  rw [haversineDistance_eq]
  have ha : 0 < havTerm tcxP0 tcxP1 := by
    unfold havTerm
    simp only [tcxP0, tcxP1]
    have e1 : ((1 : ℝ) - 0) * Real.pi / 180 / 2 = Real.pi / 360 := by ring
    have e2 : ((0 : ℝ) - 0) * Real.pi / 180 / 2 = 0 := by ring
    rw [e1, e2, Real.sin_zero]
    have hs : 0 < Real.sin (Real.pi / 360) := by
      apply Real.sin_pos_of_pos_of_lt_pi
      · positivity
      · nlinarith [Real.pi_pos]
    nlinarith [hs]
  have h2 : 0 < atan2 (Real.sqrt (havTerm tcxP0 tcxP1))
      (Real.sqrt (1 - havTerm tcxP0 tcxP1)) :=
    atan2_pos (Real.sqrt_pos.mpr ha)
  nlinarith [h2]

theorem tcx_counterexample_time :
    tcxActivityTime [tcxP0, tcxP1] (some [{ : TCXLap ℝ }]) = 100 := by
  unfold tcxActivityTime tcxLapTime
  norm_num [recomputedTime, tcxP0, tcxP1]

theorem tcx_counterexample_distance :
    tcxActivityDistance [tcxP0, tcxP1] (some [{ : TCXLap ℝ }]) = 0 := by
  unfold tcxActivityDistance
  norm_num

/-- C4 counterexample: on a TCX activity with points but no lap-declared
totals, the stored `averagePace` is `activityTime / (0 / 1000)` (the
lap-declared distance is `0`; division by zero, `0` in this model and
`Infinity` in JavaScript), which differs from
`totalTime / totalDistance` — the stored `totalDistance` falls back to the
positive recomputed haversine total, making that quotient positive. -/
theorem C4_counterexample_tcx_pace :
    (calculateTCXMetrics [tcxP0, tcxP1] (some [{ : TCXLap ℝ }])).averagePace ≠
      (calculateTCXMetrics [tcxP0, tcxP1] (some [{ : TCXLap ℝ }])).totalTime /
        (calculateTCXMetrics [tcxP0, tcxP1] (some [{ : TCXLap ℝ }])).totalDistance := by
  rw [calculateTCXMetrics_averagePace, calculateTCXMetrics_totalTime,
    calculateTCXMetrics_totalDistance, tcx_counterexample_time,
    tcx_counterexample_distance]
  have hD : 0 < recomputedDistance [tcxP0, tcxP1] := by
    unfold recomputedDistance
    simpa using haversine_tcxP0_tcxP1_pos
  rw [if_pos (by norm_num)]
  have hor : jsOrNum (0 : ℝ) (recomputedDistance [tcxP0, tcxP1]) =
      recomputedDistance [tcxP0, tcxP1] := by simp [jsOrNum]
  rw [hor]
  have hq : 0 < (100 : ℝ) / recomputedDistance [tcxP0, tcxP1] :=
    div_pos (by norm_num) hD
  norm_num
  linarith [hq]

/-- C4 amended: the GPX and FIT adapters recompute
`averagePace = totalTime / totalDistance` (time per unit of the stored
distance) whenever authoritative totals are absent; the TCX adapter does
not — it divides by the lap-declared distance scaled to kilometres,
which is `0` when no lap declares a distance. -/
theorem C4_average_pace_gpx_fit :
    (∀ pts : List (Point ℝ), 0 ≤ (calculateBasicMetrics pts).totalTime →
      (calculateBasicMetrics pts).averagePace =
        (calculateBasicMetrics pts).totalTime /
          (calculateBasicMetrics pts).totalDistance) ∧
    (∀ pts : List (Point ℝ), 0 ≤ (calculateMetricsFromFIT pts).totalTime →
      (calculateMetricsFromFIT pts).averagePace =
        (calculateMetricsFromFIT pts).totalTime /
          (calculateMetricsFromFIT pts).totalDistance) := by
  constructor
  · intro pts h
    rw [calculateBasicMetrics_averagePace, calculateBasicMetrics_totalTime,
      calculateBasicMetrics_totalDistance]
    rw [calculateBasicMetrics_totalTime] at h
    by_cases hpos : 0 < recomputedTime pts
    · rw [if_pos hpos]
    · rw [if_neg hpos]
      have h0 : recomputedTime pts = 0 := le_antisymm (not_lt.mp hpos) h
      rw [h0, zero_div]
  · intro pts h
    rw [calculateMetricsFromFIT_averagePace, calculateMetricsFromFIT_totalTime,
      calculateMetricsFromFIT_totalDistance]
    rw [calculateMetricsFromFIT_totalTime] at h
    by_cases hpos : 0 < recomputedTime pts
    · rw [if_pos hpos]
    · rw [if_neg hpos]
      have h0 : recomputedTime pts = 0 := le_antisymm (not_lt.mp hpos) h
      rw [h0, zero_div]

/-- Witness for C4's amended statement at the concrete two-point input. -/
theorem C4_average_pace_gpx_fit_witness :
    (calculateBasicMetrics [tcxP0, tcxP1]).averagePace =
      (calculateBasicMetrics [tcxP0, tcxP1]).totalTime /
        (calculateBasicMetrics [tcxP0, tcxP1]).totalDistance :=
  C4_average_pace_gpx_fit.1 [tcxP0, tcxP1] (by
    rw [calculateBasicMetrics_totalTime]
    norm_num [recomputedTime, tcxP0, tcxP1])

/-! ### C3: coordinate validation in the adapters -/

/-- A TCX activity whose single trackpoint carries latitude `200` — far
outside `[-90, 90]` but a perfectly parseable number. -/
def badTCX : TCXActivity ℝ :=
  { lap := some
      [{ distanceMeters := none
         totalTimeSeconds := none
         trackpoints := [{ hasPosition := true
                           lat := some 200
                           lng := some 0 }] }] }

/-- C3 counterexample: the TCX adapter stores the latitude-200 point in
the produced `Activity` — only `NaN` coordinates are dropped, no range
check exists. -/
theorem C3_counterexample_range_unchecked :
    (parseTCXFile badTCX).toOption.map (fun a => a.points.map (fun p => p.lat)) =
      some [200] ∧
    ¬ ((200 : ℝ) ≤ 90) := by
  have hpt : tcxPointOfTrackpoint
      ({ hasPosition := true, lat := some 200, lng := some 0 } :
        TCXTrackpoint ℝ) =
      some { lat := 200, lng := 0, ele := none, time := none, hr := none,
             cadence := none, power := none, temp := none } := rfl
  constructor
  · unfold parseTCXFile badTCX
    norm_num [tcxPointOfTrackpoint, truthyOrNone, otruthy,
      calculateTCXMetrics_points]
    rw [if_neg (by simp)]
    refine ⟨_, rfl, ?_⟩
    rw [calculateTCXMetrics_points]
    simp [hpt]
  · norm_num

theorem enumFrom_map_snd_comp {α β : Type} (g : α → β) :
    ∀ (l : List α) (n : ℕ),
      (List.enumFrom n l).map (fun ic => g ic.2) = l.map g := by
  intro l
  induction l with
  | nil => intro n; rfl
  | cons x xs ih =>
    intro n
    rw [List.enumFrom_cons, List.map_cons, List.map_cons, ih]

/-- C3 amended: the adapters validate coordinates only for `NaN` (modelled
`none`), never for range: a TCX trackpoint is stored iff it has a
`Position` and both parsed coordinates are numbers, and its stored
coordinates are exactly the parsed values; a FIT record is stored iff both
resolved semicircle chains are present, the stored coordinates being their
semicircle-to-degree conversions; the GPX adapter stores every coordinate
of every line of a line feature unchanged, dropping nothing. -/
theorem C3_coordinates_stored_unvalidated :
    (∀ (α : Type) [LinearOrderedField α] (tp : TCXTrackpoint α) (p : Point α),
      tcxPointOfTrackpoint tp = some p →
        tp.lat = some p.lat ∧ tp.lng = some p.lng) ∧
    (∀ (α : Type) [LinearOrderedField α] (tp : TCXTrackpoint α),
      (tcxPointOfTrackpoint tp).isSome = true ↔
        (tp.hasPosition = true ∧ tp.lat.isSome = true ∧ tp.lng.isSome = true)) ∧
    (∀ (α : Type) [LinearOrderedField α] (r : FITRecord α),
      (fitPointOfRecord r).isSome = true ↔
        ((jsOr (jsOr r.positionLat r.position_lat) r.enhancedLatitude).isSome = true ∧
         (jsOr (jsOr r.positionLong r.position_long) r.enhancedLongitude).isSome = true)) ∧
    (∀ (α : Type) [LinearOrderedField α] (r : FITRecord α) (p : Point α),
      fitPointOfRecord r = some p →
        convertSemicirclesToDegrees
          (jsOr (jsOr r.positionLat r.position_lat) r.enhancedLatitude) =
            some p.lat ∧
        convertSemicirclesToDegrees
          (jsOr (jsOr r.positionLong r.position_long) r.enhancedLongitude) =
            some p.lng) ∧
    (∀ (α : Type) [LinearOrderedField α] (f : GPXFeature α), f.isLine = true →
      (gpxPointsOfFeature f).map (fun p => (p.lat, p.lng)) =
        (f.lines.map (fun line => line.map (fun c => (c.lat, c.lng)))).flatten) := by
  refine ⟨?_, ?_, ?_, ?_, ?_⟩
  · intro α inst tp p h
    unfold tcxPointOfTrackpoint at h
    by_cases hpos : tp.hasPosition = true
    · rw [if_neg (by simp [hpos])] at h
      rcases hl : tp.lat with _ | la <;> rcases hg : tp.lng with _ | ln <;>
        rw [hl, hg] at h
      · exact absurd h (by simp)
      · exact absurd h (by simp)
      · exact absurd h (by simp)
      · obtain rfl := (Option.some_inj.mp h).symm
        constructor <;> simp [hl, hg]
    · rw [if_pos (by simp [hpos])] at h
      exact absurd h (by simp)
  · intro α inst tp
    rcases hb : tp.hasPosition <;> rcases hl : tp.lat with _ | la <;>
      rcases hg : tp.lng with _ | ln <;>
      simp [tcxPointOfTrackpoint, hb, hl, hg]
  · intro α inst r
    unfold fitPointOfRecord
    rcases hc1 : jsOr (jsOr r.positionLat r.position_lat) r.enhancedLatitude
        with _ | v1 <;>
      rcases hc2 : jsOr (jsOr r.positionLong r.position_long) r.enhancedLongitude
        with _ | v2 <;>
      simp [convertSemicirclesToDegrees, hc1, hc2]
  · intro α inst r p h
    unfold fitPointOfRecord at h
    rcases hc1 : jsOr (jsOr r.positionLat r.position_lat) r.enhancedLatitude
        with _ | v1 <;>
      rcases hc2 : jsOr (jsOr r.positionLong r.position_long) r.enhancedLongitude
        with _ | v2 <;>
      rw [hc1, hc2] at h <;>
      simp only [convertSemicirclesToDegrees, Option.map_none', Option.map_some'] at h
    · exact absurd h (by simp)
    · exact absurd h (by simp)
    · exact absurd h (by simp)
    · obtain rfl := (Option.some_inj.mp h).symm
      constructor <;> simp [convertSemicirclesToDegrees, hc1, hc2]
  · intro α inst f hf
    unfold gpxPointsOfFeature
    rw [if_neg (by simp [hf])]
    rw [List.map_flatten, List.map_map]
    congr 1
    apply List.map_congr_left
    intro line _
    simp only [Function.comp_apply]
    rw [List.map_map]
    exact enumFrom_map_snd_comp (fun c => (c.lat, c.lng)) line 0

/-- Witness for C3's amended statement at a concrete trackpoint. -/
theorem C3_coordinates_stored_unvalidated_witness :
    ({ hasPosition := true, lat := some 200, lng := some 0 } :
        TCXTrackpoint ℚ).lat =
      some (({ lat := 200, lng := 0, ele := none, time := none, hr := none,
               cadence := none, power := none, temp := none } : Point ℚ)).lat ∧
    ({ hasPosition := true, lat := some 200, lng := some 0 } :
        TCXTrackpoint ℚ).lng =
      some (({ lat := 200, lng := 0, ele := none, time := none, hr := none,
               cadence := none, power := none, temp := none } : Point ℚ)).lng :=
  C3_coordinates_stored_unvalidated.1 ℚ
    { hasPosition := true, lat := some 200, lng := some 0 }
    { lat := 200, lng := 0, ele := none, time := none, hr := none,
      cadence := none, power := none, temp := none } rfl

end GpxPoster
